import Mathlib

/-!
Shallow embedding of the hydrothermal-vent simulation kernel (WGSL compute
shaders + JS scheduler) over exact rationals.  f32 arithmetic is modelled by
ℚ (rounding ignored; the claims under study carry explicit tolerances or do
not depend on rounding).  Agent positions and velocities use a NaN-aware
scalar type `F`, since one claim is about NaN detection.  Calls to the
platform intrinsics cos/sin/atan2/sqrt are abstracted as oracle parameters:
the properties proved below hold for every oracle (or under the explicitly
stated, true facts such as sqrt 0 = 0).
-/

/-- WGSL clamp(x, lo, hi) = min(max(x, lo), hi) on scalars. -/
def clampq (x lo hi : ℚ) : ℚ := min (max x lo) hi

/-- f32 scalar with NaN: `num q` is an ordinary (finite) value, `nan` is NaN.
Arithmetic propagates NaN; comparisons with NaN are false; WGSL min/max
return the non-NaN operand. -/
inductive F where
  | num : ℚ → F
  | nan : F
deriving DecidableEq

def F.add : F → F → F
  | F.num a, F.num b => F.num (a + b)
  | _, _ => F.nan

def F.sub : F → F → F
  | F.num a, F.num b => F.num (a - b)
  | _, _ => F.nan

def F.mul : F → F → F
  | F.num a, F.num b => F.num (a * b)
  | _, _ => F.nan

/-- Division; all divisions in the shaders have max-guarded nonzero divisors,
so the ℚ convention a/0 = 0 is never load-bearing. -/
def F.div : F → F → F
  | F.num a, F.num b => F.num (a / b)
  | _, _ => F.nan

def F.neg : F → F
  | F.num a => F.num (-a)
  | F.nan => F.nan

def F.fabs : F → F
  | F.num a => F.num |a|
  | F.nan => F.nan

/-- Strict floating less-than: false whenever an operand is NaN. -/
def F.fltB : F → F → Bool
  | F.num a, F.num b => decide (a < b)
  | _, _ => false

/-- WGSL min builtin: if one operand is NaN the other is returned. -/
def F.fmin : F → F → F
  | F.num a, F.num b => F.num (min a b)
  | F.nan, b => b
  | a, F.nan => a

/-- WGSL max builtin: if one operand is NaN the other is returned. -/
def F.fmax : F → F → F
  | F.num a, F.num b => F.num (max a b)
  | F.nan, b => b
  | a, F.nan => a

def F.fclamp (x lo hi : F) : F := F.fmin (F.fmax x lo) hi

def F.isNan : F → Bool
  | F.nan => true
  | _ => false

instance : Add F := ⟨F.add⟩

instance : Sub F := ⟨F.sub⟩

instance : Mul F := ⟨F.mul⟩

instance : Neg F := ⟨F.neg⟩

/-- WGSL u32(x) conversion of an f32: truncate toward zero, saturating at 0
and 2^32−1.  u32(NaN) is an indeterminate value in WGSL; 0 is chosen here
(no settled claim depends on the choice). -/
def u32ofQ (q : ℚ) : ℕ := min (max (Int.floor q) 0).toNat (4294967295)

def F.toU32 : F → ℕ
  | F.num q => u32ofQ q
  | F.nan => 0

/-- Map a ℚ-valued oracle (e.g. a model of f32 sqrt, cos, sin) over `F`. -/
def F.mapNum (f : ℚ → ℚ) : F → F
  | F.num a => F.num (f a)
  | F.nan => F.nan

/-- Oracle bundle for the platform float intrinsics used by the agent
shaders.  Each oracle is a ℚ-valued model of the corresponding f32
intrinsic on finite inputs; NaN inputs propagate via `F.mapNum`. -/
structure Oracles where
  cosq : ℚ → ℚ
  sinq : ℚ → ℚ
  sqrtq : ℚ → ℚ
  atan2q : ℚ → ℚ → ℚ

def F.atan2O (orc : Oracles) : F → F → F
  | F.num y, F.num x => F.num (orc.atan2q y x)
  | _, _ => F.nan

/-- PCG-style integer hash from updateP.wgsl / updateP2.wgsl, on u32. -/
def pcg_hash (v : ℕ) : ℕ :=
  let state := (v * 747796405 + 2891336453) % 4294967296
  let word := (((state >>> ((state >>> 28) + 4)) ^^^ state) * 277803737) % 4294967296
  ((word >>> 22) ^^^ word) % 4294967296

/-- rand01(seed) = f32(pcg_hash(seed)) / 4294967296.0 (f32 rounding of the
hash value is ignored; the settled claims do not depend on it). -/
def rand01 (seed : ℕ) : ℚ := (pcg_hash seed : ℚ) / 4294967296

structure GridInfo where
  width : ℕ
  height : ℕ
deriving DecidableEq

/-- SimParams uniform struct shared by the field shaders (terrain-extended
layout of updateO.wgsl). -/
structure SimParams where
  rCenterX : ℚ
  rCenterY : ℚ
  rMaxStrength : ℚ
  rDecayRadius : ℚ
  rFalloffPower : ℚ
  rDiffusionRate : ℚ
  rDecayRate : ℚ
  rAdvectionEnabled : ℚ
  rAdvectionVX : ℚ
  rAdvectionVY : ℚ
  o0 : ℚ
  oRelaxationRate : ℚ
  restoreRate : ℚ
  oDiffusionRate : ℚ
  reactionRate : ℚ
  h0 : ℚ
  hDecayRate : ℚ
  hDiffusionRate : ℚ
  mGrowRate : ℚ
  mDeathRate : ℚ
  bDecayRate : ℚ
  kBase : ℚ
  kAlpha : ℚ
  bLongRate : ℚ
  mYield : ℚ
  deltaTime : ℚ
  currentTime : ℚ
  terrainEnabled : ℚ
  terrainH0 : ℚ
  terrainDepositionRate : ℚ
  terrainBioDepositionRate : ℚ
  terrainErosionRate : ℚ
  terrainHeightErosionAlpha : ℚ
  terrainDiffusionRate : ℚ
  terrainThermalErosionEnabled : ℚ
  terrainTalusSlope : ℚ
  terrainThermalRate : ℚ
  terrainFlowStrength : ℚ
  terrainParticleDriftStrength : ℚ

def zeroSimParams : SimParams :=
  ⟨0, 0, 0, 0, 0, 0, 0, 0, 0, 0, 0, 0, 0, 0, 0, 0, 0, 0, 0, 0,
   0, 0, 0, 0, 0, 0, 0, 0, 0, 0, 0, 0, 0, 0, 0, 0, 0, 0, 0⟩

/-- Reaction flux of updateO.wgsl / updateH.wgsl:
F = min(reactionRate · R · O, O / dt) — the cap that keeps O nonnegative. -/
def reactionF (reactionRate R O dt : ℚ) : ℚ := min (reactionRate * (R * O)) (O / dt)

/-- Per-cell update of the O kernel (updateO.wgsl `main`), returning the
written pair (oFieldOut[idx], bField[idx]).  Neumann-clamped neighbour
reads exactly as in the shader. -/
def updateO_cell (gi : GridInfo) (params : SimParams)
    (oFieldIn rField mField bField terrainField : ℕ → ℚ) (x y : ℕ) : ℚ × ℚ :=
  let idx := y * gi.width + x
  let currentO := oFieldIn idx
  let currentR := rField idx
  let currentM := mField idx
  let currentB := bField idx
  let left := if 0 < x then oFieldIn (idx - 1) else currentO
  let right := if x < gi.width - 1 then oFieldIn (idx + 1) else currentO
  let up := if 0 < y then oFieldIn (idx - gi.width) else currentO
  let down := if y < gi.height - 1 then oFieldIn (idx + gi.width) else currentO
  let laplacian := left + right + up + down - 4 * currentO
  let diffusion := params.oDiffusionRate * laplacian * params.deltaTime
  let dOdx := (right - left) * 0.5
  let dOdy := (down - up) * 0.5
  let hC := terrainField idx
  let hL := if 0 < x then terrainField (idx - 1) else hC
  let hR := if x < gi.width - 1 then terrainField (idx + 1) else hC
  let hU := if 0 < y then terrainField (idx - gi.width) else hC
  let hD := if y < gi.height - 1 then terrainField (idx + gi.width) else hC
  let dHdx := (hR - hL) * 0.5
  let dHdy := (hD - hU) * 0.5
  let vx := -params.terrainFlowStrength * dHdx
  let vy := -params.terrainFlowStrength * dHdy
  let advection :=
    if params.terrainEnabled > 0.5 ∧ params.terrainFlowStrength > 0 then
      -(vx * dOdx + vy * dOdy) * params.deltaTime
    else 0
  let F := reactionF params.reactionRate currentR currentO params.deltaTime
  let g := clampq currentM 0 1
  let F_fix := g * F
  let restore := params.restoreRate * (params.o0 - currentO) * params.deltaTime
  let consumption := F * params.deltaTime
  let newO := currentO + restore + diffusion + advection - consumption
  let newB := currentB + F_fix * params.deltaTime - currentB * params.bDecayRate * params.deltaTime
  (clampq newO 0 1, clampq newB 0 10)

/-- Per-cell update of the H production kernel (updateH.wgsl `main`):
H' = clamp(H + F_waste·dt − H·hDecayRate·dt, 0, 10). -/
def updateH_cell (gi : GridInfo) (params : SimParams)
    (hFieldIn rField oField mField : ℕ → ℚ) (x y : ℕ) : ℚ :=
  let idx := y * gi.width + x
  let currentH := hFieldIn idx
  let currentR := rField idx
  let currentO := oField idx
  let currentM := mField idx
  let F := reactionF params.reactionRate currentR currentO params.deltaTime
  let g := clampq currentM 0 1
  let F_waste := (1 - g) * F
  let production := F_waste * params.deltaTime
  let decay := currentH * params.hDecayRate * params.deltaTime
  let newH := currentH + production - decay
  clampq newH 0 10

/-- Per-cell state visible to the M kernel: the full set of scalar fields of
one cell.  updateM.wgsl binds only mIn/mOut, bField and bLongField, so the
remaining fields are untouched by construction. -/
structure MCellState where
  R : ℚ
  O : ℚ
  C : ℚ
  H : ℚ
  M : ℚ
  B : ℚ
  BLong : ℚ
deriving DecidableEq

/-- Per-cell update of the M kernel (updateM.wgsl `main`): logistic growth
on B with carrying capacity K, B consumption, slow B average. -/
def updateM_cell (params : SimParams) (s : MCellState) : MCellState :=
  let km := max (params.kBase + params.kAlpha * s.BLong) 0.001
  let growth := params.mGrowRate * s.B * (1 - s.M / km)
  let death := params.mDeathRate * s.M
  let dM := (growth - death) * params.deltaTime
  let newM := s.M + dM
  let consume := min (params.mYield * max dM 0) s.B
  let newB := s.B - consume
  let newBLong := s.BLong + params.bLongRate * (newB - s.BLong) * params.deltaTime
  { s with M := clampq newM 0 10, B := clampq newB 0 10, BLong := clampq newBLong 0 10 }

/-- Parameters of the C1 scenario: reactionRate = 1, dt = 0.001, every other
rate zero. -/
def c1Params : SimParams := { zeroSimParams with reactionRate := 1, deltaTime := 1/1000 }

def c1Grid : GridInfo := ⟨1, 1⟩

/-- Concrete parameter bundle for the C8 witness. -/
def c8Params : SimParams := { zeroSimParams with deltaTime := 1 }

/-- Carrying capacity K = max(kBase + kAlpha·B_long, 0.001) of updateM.wgsl. -/
def mCarryK (params : SimParams) (s : MCellState) : ℚ :=
  max (params.kBase + params.kAlpha * s.BLong) 0.001

/-- The M increment dM = (growth − death)·dt of updateM.wgsl. -/
def mGrowthDelta (params : SimParams) (s : MCellState) : ℚ :=
  (params.mGrowRate * s.B * (1 - s.M / mCarryK params s) - params.mDeathRate * s.M) *
    params.deltaTime

/-- consume = min(mYield·max(dM,0), B) of updateM.wgsl. -/
def mConsume (params : SimParams) (s : MCellState) : ℚ :=
  min (params.mYield * max (mGrowthDelta params s) 0) s.B

/-- Ping-pong indices of the engine (SimulationEngine.js constructor). -/
structure EngineState where
  rBufferIndex : ℕ
  oBufferIndex : ℕ
  mBufferIndex : ℕ
  hBufferIndex : ℕ
  pBufferIndex : ℕ
  p2BufferIndex : ℕ
  frameCount : ℕ
deriving DecidableEq

/-- One compute-pass dispatch of the step pipeline.  `terrainZ` is the
terrain height kernel that exists as a shader; whether step() dispatches it
is settled below. -/
inductive Dispatch where
  | updateR
  | updateO
  | computeC
  | updateH
  | diffuseH
  | updateM
  | clearDp
  | scatterDp
  | clearNextP2
  | updateP2
  | clearDp2
  | scatterDp2
  | updateP
  | terrainZ
deriving DecidableEq

/-- SimulationEngine.step(): the ordered list of compute passes it encodes
and the ping-pong index flips it performs, translated dispatch by dispatch
from the body of step() in SimulationEngine.js. -/
def SimulationEngine.step (s : EngineState) : EngineState × List Dispatch :=
  -- 1. Update R field; swap R
  let d1 := [Dispatch.updateR]
  let s1 := { s with rBufferIndex := 1 - s.rBufferIndex }
  -- 2. Update O field; swap O
  let d2 := d1 ++ [Dispatch.updateO]
  let s2 := { s1 with oBufferIndex := 1 - s1.oBufferIndex }
  -- 3. Compute C = R * O
  let d3 := d2 ++ [Dispatch.computeC]
  -- 4. Update H field; 4.5 swap H
  let d4 := d3 ++ [Dispatch.updateH]
  let s4 := { s2 with hBufferIndex := 1 - s2.hBufferIndex }
  -- 5. Diffuse H field; 5.5 swap H again
  let d5 := d4 ++ [Dispatch.diffuseH]
  let s5 := { s4 with hBufferIndex := 1 - s4.hBufferIndex }
  -- 6. Update M field; swap M
  let d6 := d5 ++ [Dispatch.updateM]
  let s6 := { s5 with mBufferIndex := 1 - s5.mBufferIndex }
  -- 7. Clear P density buffer
  let d7 := d6 ++ [Dispatch.clearDp]
  -- 8. Accumulate P density
  let d8 := d7 ++ [Dispatch.scatterDp]
  -- 9. Clear next predator buffer
  let d9 := d8 ++ [Dispatch.clearNextP2]
  -- 10. Update predators; swap P2
  let d10 := d9 ++ [Dispatch.updateP2]
  let s10 := { s6 with p2BufferIndex := 1 - s6.p2BufferIndex }
  -- 11. Clear P2 density buffer
  let d11 := d10 ++ [Dispatch.clearDp2]
  -- 12. Accumulate P2 density
  let d12 := d11 ++ [Dispatch.scatterDp2]
  -- 13. Update particles; swap P
  let d13 := d12 ++ [Dispatch.updateP]
  let s13 := { s10 with pBufferIndex := 1 - s10.pBufferIndex }
  ({ s13 with frameCount := s13.frameCount + 1 }, d13)

/-- Parameter metadata record (ParameterDefinition in constants.js). -/
structure ParameterDefinition where
  name : String
  defaultValue : ℚ
  min : ℚ
  max : ℚ
  step : ℚ
  category : String
  description : String

def PARAMETER_DEFS : List ParameterDefinition := [
  ⟨"gridWidth", 512, 64, 1024, 64, "Grid", "Grid width"⟩,
  ⟨"gridHeight", 512, 64, 1024, 64, "Grid", "Grid height"⟩,
  ⟨"rCenterX", 256, 0, 512, 1, "R Field", "Injection center X"⟩,
  ⟨"rCenterY", 256, 0, 512, 1, "R Field", "Injection center Y"⟩,
  ⟨"rMaxStrength", (1/100), 0, 1, (1/100), "R Field", "Max R at center"⟩,
  ⟨"rDecayRadius", 200, 1, 200, 1, "R Field", "Injection radius"⟩,
  ⟨"rFalloffPower", 5, (5/10), 5, (1/10), "R Field", "Falloff curve"⟩,
  ⟨"rDiffusionRate", 2, 0, 2, (1/100), "R Field", "R diffusion rate"⟩,
  ⟨"rDecayRate", (1/100), 0, 1, (1/100), "R Field", "R decay rate"⟩,
  ⟨"rAdvectionEnabled", 0, 0, 1, 1, "R Field", "R advection ON/OFF"⟩,
  ⟨"rAdvectionVX", (5/10), (-(5/10)), (5/10), (1/100), "R Field", "R advection base speed"⟩,
  ⟨"rAdvectionVY", (3/100), (-(5/10)), (5/10), (1/100), "R Field", "R advection base speed (Y component)"⟩,
  ⟨"o0", (88/100), 0, 1, (1/100), "O Field", "Background O₀"⟩,
  ⟨"oRelaxationRate", (5/1000), 0, 1, (1/100), "O Field", "Relaxation rate"⟩,
  ⟨"oDiffusionRate", 1, 0, 2, (1/100), "O Field", "O diffusion rate"⟩,
  ⟨"reactionRate", 2, 0, 2, (1/100), "Reaction", "반응 계수"⟩,
  ⟨"restoreRate", (6189/100000), 0, 1, (1/100), "Reaction", "O 복원율"⟩,
  ⟨"h0", (0/10), 0, 1, (1/100), "H Field", "H 배경 농도"⟩,
  ⟨"hDecayRate", (2/100), 0, 1, (1/100), "H Field", "H 감쇠율"⟩,
  ⟨"hDiffusionRate", (8/10), 0, 1, (1/100), "H Field", "H 확산율"⟩,
  ⟨"mGrowRate", (3/10), 0, 5, (1/100), "M Field", "M growth rate from B"⟩,
  ⟨"mDeathRate", (15/100), 0, 1, (1/100), "M Field", "M death rate"⟩,
  ⟨"bDecayRate", (1/1000), 0, 1, (1/100), "M Field", "B decay rate (sink to environment)"⟩,
  ⟨"kBase", (8/10), (1/10), 10, (1/10), "M Field", "M carrying capacity base K0"⟩,
  ⟨"kAlpha", (5/10), 0, 5, (1/100), "M Field", "Km sensitivity to long-term B"⟩,
  ⟨"bLongRate", (1/100), 0, 2, (1/100), "M Field", "Long-term B averaging rate"⟩,
  ⟨"mYield", (8/10), 0, 5, (1/100), "M Field", "B consumption per positive M growth"⟩,
  ⟨"pCount", 3072, 0, 16384, 256, "Particles", "Initial particle count (can grow via reproduction)"⟩,
  ⟨"pBiasStrength", (1/1000), 0, 5, (1/100), "Particles", "Bias toward ∇B"⟩,
  ⟨"pFriction", (2/10), 0, 2, (1/100), "Particles", "Velocity friction"⟩,
  ⟨"pNoiseStrength", (1/100), 0, 2, (1/100), "Particles", "Random walk strength"⟩,
  ⟨"pSpeed", (10/10), 0, 5, (1/100), "Particles", "Movement speed scale"⟩,
  ⟨"pEatEnabled", 1, 0, 1, 1, "Particles", "Particle eating ON/OFF"⟩,
  ⟨"pEatAmount", (5/100), 0, (5/100), (5/10000), "Particles", "B consumption per step"⟩,
  ⟨"pPointSize", (10/10), 1, 8, (5/10), "Particles", "Particle point size (px)"⟩,
  ⟨"pEnergyDecayRate", (3/1000), 0, (1/10), (1/10000), "Particles", "Energy decay per step"⟩,
  ⟨"pEnergyFromEat", (1/10), 0, (5/10), (1/1000), "Particles", "Energy gain coefficient from B consumption"⟩,
  ⟨"pMinEnergy", (1/10), 0, 1, (1/100), "Particles", "Minimum energy threshold for survival"⟩,
  ⟨"pMaxEnergy", (20/10), (5/10), (50/10), (1/10), "Particles", "Maximum energy cap"⟩,
  ⟨"pReproduceEnabled", 1, 0, 1, 1, "Particles", "Reproduction ON/OFF"⟩,
  ⟨"pReproduceThreshold", (15/10), (5/10), (30/10), (1/10), "Particles", "Energy required to reproduce"⟩,
  ⟨"pReproduceSpawnRadius", (50/10), (10/10), (200/10), (5/10), "Particles", "Child spawn distance from parent"⟩,
  ⟨"p2Count", 512, 0, 16384, 256, "Predators", "Initial predator count (can grow via reproduction)"⟩,
  ⟨"p2BiasStrength", (2/1000), 0, 5, (1/100), "Predators", "Bias toward ∇P"⟩,
  ⟨"p2Friction", (25/100), 0, 2, (1/100), "Predators", "Velocity friction"⟩,
  ⟨"p2NoiseStrength", (2/100), 0, 2, (1/100), "Predators", "Random walk strength"⟩,
  ⟨"p2Speed", (12/10), 0, 5, (1/100), "Predators", "Movement speed scale"⟩,
  ⟨"p2EatEnabled", 1, 0, 1, 1, "Predators", "Predator eating ON/OFF"⟩,
  ⟨"p2EatAmount", (15/100), 0, (5/10), (5/1000), "Predators", "Local P density usage per step"⟩,
  ⟨"p2PointSize", (18/10), 1, 8, (5/10), "Predators", "Predator point size (px)"⟩,
  ⟨"p2EnergyDecayRate", (4/1000), 0, (1/10), (1/10000), "Predators", "Energy decay per step"⟩,
  ⟨"p2EnergyFromEat", (2/10), 0, (5/10), (1/1000), "Predators", "Energy gain coefficient from predation"⟩,
  ⟨"p2MinEnergy", (1/10), 0, 1, (1/100), "Predators", "Minimum energy threshold for survival"⟩,
  ⟨"p2MaxEnergy", (25/10), (5/10), (50/10), (1/10), "Predators", "Maximum energy cap"⟩,
  ⟨"p2ReproduceEnabled", 1, 0, 1, 1, "Predators", "Reproduction ON/OFF"⟩,
  ⟨"p2ReproduceThreshold", (16/10), (5/10), (30/10), (1/10), "Predators", "Energy required to reproduce"⟩,
  ⟨"p2ReproduceSpawnRadius", (60/10), (10/10), (200/10), (5/10), "Predators", "Child spawn distance from parent"⟩,
  ⟨"p2PredationStrength", (15/1000), 0, (8/10), (1/1000), "Predators", "P energy loss per nearby predator"⟩,
  ⟨"deltaTime", (5/100), (1/1000), (5/10), (1/1000), "Simulation", "Time step (dt)"⟩,
  ⟨"speedMultiplier", 10, 1, 30, 1, "Simulation", "Speed multiplier (sub-steps per frame)"⟩,
  ⟨"terrainEnabled", 1, 0, 1, 1, "Terrain", "Terrain feedback ON/OFF"⟩,
  ⟨"terrainH0", (10/10), (5/100), (100/10), (5/100), "Terrain", "Height tone-map scale (H0)"⟩,
  ⟨"terrainDepositionRate", (1/10), 0, (20/10), (1/100), "Terrain", "Deposition rate from (waste reaction)"⟩,
  ⟨"terrainBioDepositionRate", (2/1000), 0, (1/10), (5/10000), "Terrain", "Deposition rate from long-term B"⟩,
  ⟨"terrainErosionRate", (5/100), 0, (20/10), (1/100), "Terrain", "Erosion rate from |∇R|"⟩,
  ⟨"terrainHeightErosionAlpha", (20/10), 0, (200/10), (1/10), "Terrain", "Extra erosion at high Z"⟩,
  ⟨"terrainDiffusionRate", (1/100), 0, (10/10), (1/1000), "Terrain", "Terrain smoothing diffusion"⟩,
  ⟨"terrainThermalErosionEnabled", 1, 0, 1, 1, "Terrain", "Thermal erosion (talus) ON/OFF"⟩,
  ⟨"terrainTalusSlope", (3/10), (1/100), (20/10), (1/100), "Terrain", "Talus slope threshold"⟩,
  ⟨"terrainThermalRate", (2/10), 0, (50/10), (1/100), "Terrain", "Thermal erosion strength"⟩,
  ⟨"terrainFlowStrength", (8/100), 0, (20/10), (1/100), "Terrain", "Downhill flow strength (fields)"⟩,
  ⟨"terrainParticleDriftStrength", (12/100), 0, (20/10), (1/100), "Terrain", "Downhill drift strength (particles)"⟩,
  ⟨"visualizationMode", 4, 0, 6, 1, "Visualization", "Display mode"⟩,
  ⟨"colorScheme", 0, 0, 3, 1, "Visualization", "Color scheme"⟩]

/-- The parameter store (the `values` object of SimulationParameters). -/
structure SimulationParameters where
  values : String → Option ℚ

/-- SimulationParameters constructor: every defined name holds its default. -/
def SimulationParameters.init : SimulationParameters :=
  ⟨fun k => (PARAMETER_DEFS.find? (fun d => d.name == k)).map (fun d => d.defaultValue)⟩

/-- SimulationParameters.set(name, value): unknown names warn and return
undefined leaving the store unchanged; known names store and return
Math.max(def.min, Math.min(def.max, value)). -/
def SimulationParameters.set (ps : SimulationParameters) (name : String) (value : ℚ) :
    SimulationParameters × Option ℚ :=
  match PARAMETER_DEFS.find? (fun d => d.name == name) with
  | none => (ps, none)
  | some d =>
    let clamped := max d.min (min d.max value)
    (⟨fun k => if k == name then some clamped else ps.values k⟩, some clamped)

/-- Agent record (32-byte Particle struct; both pools use it). -/
structure Particle where
  posx : F
  posy : F
  velx : F
  vely : F
  energy : ℚ
  type_ : ℕ
  state : ℕ
  age : F
deriving DecidableEq

/-- Math.PI: the exact value of the IEEE-754 double constant. -/
def mathPi : ℚ := 884279719003555 / 281474976710656

/-- Slot i written by buffers.initializeParticles(activeCount): iteration i
consumes three Math.random() draws (pos.x, pos.y, age) from the stream
`rng`; slots at or above activeCount are zero-filled with state 0.  The
Float32Array packing is modelled field-wise; f32 rounding is ignored. -/
def initParticleSlot (gridWidth gridHeight : ℚ) (rng : ℕ → ℚ) (activeCount i : ℕ) : Particle :=
  if i < activeCount then
    { posx := F.num (rng (3*i) * gridWidth), posy := F.num (rng (3*i+1) * gridHeight),
      velx := F.num 0, vely := F.num 0, energy := 1, type_ := 0, state := 1,
      age := F.num (rng (3*i+2) * mathPi * 2) }
  else
    { posx := F.num 0, posy := F.num 0, velx := F.num 0, vely := F.num 0,
      energy := 0, type_ := 0, state := 0, age := F.num 0 }

/-- Slot i written by buffers.initializePredators(activeCount): identical
shape, species tag type = 1. -/
def initPredatorSlot (gridWidth gridHeight : ℚ) (rng : ℕ → ℚ) (activeCount i : ℕ) : Particle :=
  if i < activeCount then
    { posx := F.num (rng (3*i) * gridWidth), posy := F.num (rng (3*i+1) * gridHeight),
      velx := F.num 0, vely := F.num 0, energy := 1, type_ := 1, state := 1,
      age := F.num (rng (3*i+2) * mathPi * 2) }
  else
    { posx := F.num 0, posy := F.num 0, velx := F.num 0, vely := F.num 0,
      energy := 0, type_ := 1, state := 0, age := F.num 0 }

/-- Cell index into which accumulateDensity.wgsl buckets an agent:
clamp the position into [0, W−1]×[0, H−1], truncate to u32, yi·W + xi. -/
def densityBucket (gi : GridInfo) (p : Particle) : ℕ :=
  let x := F.fclamp p.posx (F.num 0) (F.num ((gi.width - 1 : ℕ) : ℚ))
  let y := F.fclamp p.posy (F.num 0) (F.num ((gi.height - 1 : ℕ) : ℚ))
  F.toU32 y * gi.width + F.toU32 x

/-- One atomicAdd(&density[c], 1). -/
def bumpCell (d : ℕ → ℕ) (c : ℕ) : ℕ → ℕ := fun i => if i = c then d i + 1 else d i

/-- The scatter kernel over the whole pool.  The shader runs one invocation
per slot with atomic integer adds; integer addition is associative and
commutative, so the per-cell result equals this serialized fold. -/
def accumulateDensity (gi : GridInfo) (pool : List Particle) (d : ℕ → ℕ) : ℕ → ℕ :=
  pool.foldl (fun acc p => if p.state = 0 then acc else bumpCell acc (densityBucket gi p)) d

/-- The clear kernel: every cell of the density grid reset to 0. -/
def clearDensity : ℕ → ℕ := fun _ => 0

/-- ParticleParams uniform struct (prey kernel). -/
structure ParticleParams where
  pCount : ℚ
  pBiasStrength : ℚ
  pFriction : ℚ
  pNoiseStrength : ℚ
  pSpeed : ℚ
  pEatEnabled : ℚ
  pEatAmount : ℚ
  pPointSize : ℚ
  pEnergyDecayRate : ℚ
  pEnergyFromEat : ℚ
  pMinEnergy : ℚ
  pMaxEnergy : ℚ
  pReproduceEnabled : ℚ
  pReproduceThreshold : ℚ
  pReproduceSpawnRadius : ℚ

/-- PredatorParams uniform struct. -/
structure PredatorParams where
  p2Count : ℚ
  p2BiasStrength : ℚ
  p2Friction : ℚ
  p2NoiseStrength : ℚ
  p2Speed : ℚ
  p2EatEnabled : ℚ
  p2EatAmount : ℚ
  p2PointSize : ℚ
  p2EnergyDecayRate : ℚ
  p2EnergyFromEat : ℚ
  p2MinEnergy : ℚ
  p2MaxEnergy : ℚ
  p2ReproduceEnabled : ℚ
  p2ReproduceThreshold : ℚ
  p2ReproduceSpawnRadius : ℚ
  p2PredationStrength : ℚ

/-- The tau literal 6.28318530718 of the shaders. -/
def tauW : ℚ := 6.28318530718

/-- The pi literal 3.14159265359 of the shaders. -/
def piW : ℚ := 3.14159265359

/-- WGSL fract(x) = x − floor(x). -/
def fractq (x : ℚ) : ℚ := x - Int.floor x

/-- The reproduction slot probe shared by both agent kernels: up to 8
candidates (start + attempt·1237) mod maxSlots, first input-buffer slot
with state 0 wins. -/
def findFreeSlot (pool : ℕ → Particle) (maxSlots startSlot : ℕ) : Option ℕ :=
  (List.range 8).findSome? (fun attempt =>
    let candidateSlot := (startSlot + attempt * 1237) % maxSlots
    if (pool candidateSlot).state = 0 then some candidateSlot else none)

/-- The three per-step random draws of the prey kernel:
seed = idx XOR (u32(t·60)·1664525 + 1013904223). -/
def updatePSeeds (simParams : SimParams) (idx : ℕ) : ℚ × ℚ × ℚ :=
  let timeStep := u32ofQ (simParams.currentTime * 60)
  let seedBase := idx ^^^ ((timeStep * 1664525 + 1013904223) % 4294967296)
  (rand01 seedBase, rand01 (seedBase ^^^ 0xA511E9B3), rand01 (seedBase ^^^ 0x63D83595))

/-- The three per-step random draws of the predator kernel:
seed = idx XOR (u32(t·60)·1103515245 + 12345). -/
def updateP2Seeds (simParams : SimParams) (idx : ℕ) : ℚ × ℚ × ℚ :=
  let timeStep := u32ofQ (simParams.currentTime * 60)
  let seedBase := idx ^^^ ((timeStep * 1103515245 + 12345) % 4294967296)
  (rand01 seedBase, rand01 (seedBase ^^^ 0xC2B2AE35), rand01 (seedBase ^^^ 0x27D4EB2F))

/-- Kinematic output of the motion phase: position, velocity, heading. -/
structure MoveKin where
  posx : F
  posy : F
  velx : F
  vely : F
  age : F
deriving DecidableEq

/-- The per-axis reflection of both agent kernels: mirror off the wall and
force the velocity sign away from it; reports whether a bounce happened. -/
def reflectAxis (maxC : ℚ) (pos vel : F) : F × F × Bool :=
  if F.fltB pos (F.num 0) then (-pos, F.fabs vel, true)
  else if F.fltB (F.num maxC) pos then (F.num (2 * maxC) - pos, -(F.fabs vel), true)
  else (pos, vel, false)

/-- Speed cap of both agent kernels: if |v| > maxSpeed, v := normalize(v)·maxSpeed. -/
def speedLimit (orc : Oracles) (maxSpeed : ℚ) (velx vely : F) : F × F :=
  let len := F.mapNum orc.sqrtq (velx * velx + vely * vely)
  if F.fltB (F.num maxSpeed) len
  then ((velx.div len) * F.num maxSpeed, (vely.div len) * F.num maxSpeed)
  else (velx, vely)

/-- The exploration heading turn of both agent kernels: with probability
turnProbability turn by (r1·2−1)·π and wrap into (−π, π]. -/
def headingTurn (age : F) (r0 r1 turnProbability : ℚ) : F :=
  if r0 < turnProbability then
    let turned := age + F.num ((r1 * 2 - 1) * piW)
    let w1 := if F.fltB (F.num piW) turned then turned - F.num tauW else turned
    if F.fltB w1 (F.num (-piW)) then w1 + F.num tauW else w1
  else age

/-- Position integration, wall reflection, clamp, post-bounce velocity
scaling by 0.7 and heading reset to atan2(vel), shared by both kernels. -/
def integrateReflect (orc : Oracles) (maxX maxY dt : ℚ)
    (posx posy velx vely age1 : F) : MoveKin :=
  let newPosX := posx + velx * F.num dt
  let newPosY := posy + vely * F.num dt
  let rx := reflectAxis maxX newPosX velx
  let ry := reflectAxis maxY newPosY vely
  let bounced := rx.2.2 || ry.2.2
  let posX2 := F.fclamp rx.1 (F.num 0) (F.num maxX)
  let posY2 := F.fclamp ry.1 (F.num 0) (F.num maxY)
  let velx4 := if bounced then rx.2.1 * F.num 0.7 else rx.2.1
  let vely4 := if bounced then ry.2.1 * F.num 0.7 else ry.2.1
  let age2 := if bounced then F.atan2O orc vely4 velx4 else age1
  ⟨posX2, posY2, velx4, vely4, age2⟩

/-- Desired velocity and updated heading of the prey kernel: gradient drive
on B when food is present (gradStrength > 0.002), hunger-modulated
persistent random walk otherwise. -/
def updateP_desired (pp : ParticleParams) (orc : Oracles)
    (gradx grady r0 r1 r2 hungerFactor : ℚ) (age : F) : (F × F) × F :=
  let gradStrength := orc.sqrtq (gradx * gradx + grady * grady)
  let hasFood := gradStrength > 0.002
  let noiseAngle := r2 * tauW
  let noiseX := orc.cosq noiseAngle * pp.pNoiseStrength
  let noiseY := orc.sinq noiseAngle * pp.pNoiseStrength
  let foodDesired :=
    let gradDirX := gradx / max gradStrength 0.000001
    let gradDirY := grady / max gradStrength 0.000001
    let noiseScale := 1 - clampq (gradStrength * 5) 0 1
    let driveX := pp.pBiasStrength * gradDirX + noiseX * noiseScale
    let driveY := pp.pBiasStrength * gradDirY + noiseY * noiseScale
    let driveLen := orc.sqrtq (driveX * driveX + driveY * driveY)
    (F.num (driveX / max driveLen 0.000001 * pp.pSpeed),
     F.num (driveY / max driveLen 0.000001 * pp.pSpeed))
  let heading := headingTurn age r0 r1 (0.02 + hungerFactor * 0.08)
  let exploreDesired :=
    (F.mapNum orc.cosq heading * F.num pp.pSpeed
       + F.num (noiseX * (0.25 + 0.75 * hungerFactor) * pp.pSpeed),
     F.mapNum orc.sinq heading * F.num pp.pSpeed
       + F.num (noiseY * (0.25 + 0.75 * hungerFactor) * pp.pSpeed))
  (if hasFood then foodDesired else exploreDesired, if hasFood then age else heading)

/-- Motion phase of the prey kernel: B-gradient sampling at the clamped
cell, desired velocity, velocity smoothing, speed cap, reflecting
integration. -/
def updateP_motion (gi : GridInfo) (pp : ParticleParams) (sp : SimParams)
    (orc : Oracles) (bField : ℕ → ℚ) (idx : ℕ) (p0 : Particle) : MoveKin :=
  let gridW := gi.width
  let gridH := gi.height
  let maxX := ((gridW - 1 : ℕ) : ℚ)
  let maxY := ((gridH - 1 : ℕ) : ℚ)
  let xi := F.toU32 (F.fclamp p0.posx (F.num 0) (F.num maxX))
  let yi := F.toU32 (F.fclamp p0.posy (F.num 0) (F.num maxY))
  let base := yi * gridW + xi
  let bL := bField (base - (if 0 < xi then 1 else 0))
  let bR := bField (base + (if xi < gridW - 1 then 1 else 0))
  let bU := bField (base - (if 0 < yi then gridW else 0))
  let bD := bField (base + (if yi < gridH - 1 then gridW else 0))
  let gradx := (bR - bL) * 0.5
  let grady := (bD - bU) * 0.5
  let dt := sp.deltaTime
  let r0 := (updatePSeeds sp idx).1
  let r1 := (updatePSeeds sp idx).2.1
  let r2 := (updatePSeeds sp idx).2.2
  let hungerFactor := clampq (1 - p0.energy) 0 1
  let des := updateP_desired pp orc gradx grady r0 r1 r2 hungerFactor p0.age
  let damping := clampq (1 - pp.pFriction * dt) 0 1
  let velx1 := p0.velx * F.num damping + des.1.1 * F.num (1 - damping)
  let vely1 := p0.vely * F.num damping + des.1.2 * F.num (1 - damping)
  let vel2 := speedLimit orc (pp.pSpeed * 2) velx1 vely1
  integrateReflect orc maxX maxY dt p0.posx p0.posy vel2.1 vel2.2 des.2

/-- Motion + energy phase of the prey kernel (updateP main body before the
reproduction block), for an active agent p0 = particlesIn[idx]: motion,
energy decay, optional eating (writes B in place at the post-move cell),
predator pressure from the Dp2 density.  Returns the moved agent (state
untouched) and the updated B field. -/
def updateP_move (gi : GridInfo) (particleParams : ParticleParams)
    (predatorParams : PredatorParams) (simParams : SimParams) (orc : Oracles)
    (bField : ℕ → ℚ) (p2Density : ℕ → ℕ) (idx : ℕ) (p0 : Particle) : Particle × (ℕ → ℚ) :=
  let kin := updateP_motion gi particleParams simParams orc bField idx p0
  let dt := simParams.deltaTime
  let e1 := p0.energy - particleParams.pEnergyDecayRate * dt
  let eatIdx := F.toU32 kin.posy * gi.width + F.toU32 kin.posx
  let bOut := if particleParams.pEatEnabled > 0.5
    then (fun j => if j = eatIdx
      then bField eatIdx - min (particleParams.pEatAmount * dt) (bField eatIdx)
      else bField j)
    else bField
  let e2 := if particleParams.pEatEnabled > 0.5
    then e1 + min (particleParams.pEatAmount * dt) (bField eatIdx) * particleParams.pEnergyFromEat
    else e1
  let predIdx := F.toU32 kin.posy * gi.width + F.toU32 kin.posx
  let localPredators := ((p2Density predIdx : ℕ) : ℚ)
  let e3 := if localPredators > 0
    then e2 - predatorParams.p2PredationStrength * dt * localPredators
    else e2
  ({ p0 with posx := kin.posx, posy := kin.posy, velx := kin.velx, vely := kin.vely,
             age := kin.age, energy := e3 }, bOut)

/-- Final energy cap and death check shared by the tail of both kernels. -/
def agentFinalize (maxEnergy minEnergy : ℚ) (p : Particle) (e : ℚ) : Particle :=
  let e2 := min e maxEnergy
  { p with energy := e2, state := if e2 < minEnergy then 0 else p.state }

/-- The prey update kernel (updateP, shader of part_006): one invocation for
slot idx.  Returns the parent record written to particlesOut[idx], the
optional child write (slot, record), and the updated B field. -/
def updateP (gi : GridInfo) (particleParams : ParticleParams)
    (predatorParams : PredatorParams) (simParams : SimParams) (orc : Oracles)
    (particlesIn : ℕ → Particle) (bField : ℕ → ℚ) (p2Density : ℕ → ℕ)
    (idx : ℕ) : Particle × Option (ℕ × Particle) × (ℕ → ℚ) :=
  let maxParticles : ℕ := 16384
  let p0 := particlesIn idx
  if p0.state = 0 then (p0, none, bField) else
  let mv := updateP_move gi particleParams predatorParams simParams orc bField p2Density idx p0
  let p1 := mv.1
  let r0 := (updatePSeeds simParams idx).1
  let r1 := (updatePSeeds simParams idx).2.1
  let r2 := (updatePSeeds simParams idx).2.2
  if particleParams.pReproduceEnabled > 0.5 ∧
      particleParams.pReproduceThreshold ≤ p1.energy ∧ p1.state = 1 then
    let startSlot := u32ofQ (r0 * (maxParticles : ℚ))
    match findFreeSlot particlesIn maxParticles startSlot with
    | some targetSlot =>
      let eHalf := p1.energy * 0.5
      let spawnOffsetAngle := r1 * tauW
      let spawnDist := particleParams.pReproduceSpawnRadius * (0.5 + r2 * 0.5)
      let offX := orc.cosq spawnOffsetAngle * spawnDist
      let offY := orc.sinq spawnOffsetAngle * spawnDist
      let childPosX := F.fclamp (p1.posx + F.num offX) (F.num 0) (F.num ((gi.width - 1 : ℕ) : ℚ))
      let childPosY := F.fclamp (p1.posy + F.num offY) (F.num 0) (F.num ((gi.height - 1 : ℕ) : ℚ))
      let r3 := fractq (orc.sinq ((idx : ℚ) * 78.233 + simParams.currentTime * 0.1) * 43758.5453)
      let r4 := fractq (orc.sinq ((idx : ℚ) * 12.989 + simParams.currentTime * 0.2) * 43758.5453)
      let childVelX := p1.velx * F.num 0.5 + F.num ((r3 * 2 - 1) * particleParams.pSpeed * 0.3)
      let childVelY := p1.vely * F.num 0.5 + F.num ((r4 * 2 - 1) * particleParams.pSpeed * 0.3)
      let child : Particle := ⟨childPosX, childPosY, childVelX, childVelY, eHalf,
        p1.type_, 1, F.num spawnOffsetAngle⟩
      (agentFinalize particleParams.pMaxEnergy particleParams.pMinEnergy p1 eHalf,
        some (targetSlot, child), mv.2)
    | none =>
      (agentFinalize particleParams.pMaxEnergy particleParams.pMinEnergy p1 p1.energy,
        none, mv.2)
  else
    (agentFinalize particleParams.pMaxEnergy particleParams.pMinEnergy p1 p1.energy,
      none, mv.2)

/-- Desired velocity and updated heading of the predator kernel: gradient
drive on the prey density when prey is present (Dp center > 0 or gradient
nonzero), persistent random walk otherwise. -/
def updateP2_desired (pdp : PredatorParams) (orc : Oracles)
    (pC gradx grady r0 r1 r2 : ℚ) (age : F) : (F × F) × F :=
  let gradStrength := orc.sqrtq (gradx * gradx + grady * grady)
  let hasPrey := pC > 0 ∨ gradStrength > 0
  let noiseAngle := r2 * tauW
  let noiseX := orc.cosq noiseAngle * pdp.p2NoiseStrength
  let noiseY := orc.sinq noiseAngle * pdp.p2NoiseStrength
  let preyDesired :=
    let gradDirX := gradx / max gradStrength 0.000001
    let gradDirY := grady / max gradStrength 0.000001
    let noiseScale := 1 - clampq (gradStrength * 0.5) 0 1
    let driveX := pdp.p2BiasStrength * gradDirX + noiseX * noiseScale
    let driveY := pdp.p2BiasStrength * gradDirY + noiseY * noiseScale
    let driveLen := orc.sqrtq (driveX * driveX + driveY * driveY)
    (F.num (driveX / max driveLen 0.000001 * pdp.p2Speed),
     F.num (driveY / max driveLen 0.000001 * pdp.p2Speed))
  let heading := headingTurn age r0 r1 0.03
  let exploreDesired :=
    (F.mapNum orc.cosq heading * F.num pdp.p2Speed + F.num (noiseX * 0.5 * pdp.p2Speed),
     F.mapNum orc.sinq heading * F.num pdp.p2Speed + F.num (noiseY * 0.5 * pdp.p2Speed))
  (if hasPrey then preyDesired else exploreDesired, if hasPrey then age else heading)

/-- Motion phase of the predator kernel: Dp-gradient sampling at the
clamped cell, desired velocity, terrain downhill drift, velocity smoothing,
speed cap, reflecting integration. -/
def updateP2_motion (gi : GridInfo) (pdp : PredatorParams) (sp : SimParams)
    (orc : Oracles) (pDensity : ℕ → ℕ) (terrainField : ℕ → ℚ)
    (idx : ℕ) (p0 : Particle) : MoveKin :=
  let gridW := gi.width
  let gridH := gi.height
  let maxX := ((gridW - 1 : ℕ) : ℚ)
  let maxY := ((gridH - 1 : ℕ) : ℚ)
  let xi := F.toU32 (F.fclamp p0.posx (F.num 0) (F.num maxX))
  let yi := F.toU32 (F.fclamp p0.posy (F.num 0) (F.num maxY))
  let base := yi * gridW + xi
  let pC := ((pDensity base : ℕ) : ℚ)
  let pL := ((pDensity (base - (if 0 < xi then 1 else 0)) : ℕ) : ℚ)
  let pR := ((pDensity (base + (if xi < gridW - 1 then 1 else 0)) : ℕ) : ℚ)
  let pU := ((pDensity (base - (if 0 < yi then gridW else 0)) : ℕ) : ℚ)
  let pD := ((pDensity (base + (if yi < gridH - 1 then gridW else 0)) : ℕ) : ℚ)
  let gradx := (pR - pL) * 0.5
  let grady := (pD - pU) * 0.5
  let dt := sp.deltaTime
  let r0 := (updateP2Seeds sp idx).1
  let r1 := (updateP2Seeds sp idx).2.1
  let r2 := (updateP2Seeds sp idx).2.2
  let des := updateP2_desired pdp orc pC gradx grady r0 r1 r2 p0.age
  let tL := terrainField (base - (if 0 < xi then 1 else 0))
  let tR := terrainField (base + (if xi < gridW - 1 then 1 else 0))
  let tU := terrainField (base - (if 0 < yi then gridW else 0))
  let tD := terrainField (base + (if yi < gridH - 1 then gridW else 0))
  let driftX := -sp.terrainParticleDriftStrength * ((tR - tL) * 0.5)
    * (1 / max sp.terrainH0 0.000001)
  let driftY := -sp.terrainParticleDriftStrength * ((tD - tU) * 0.5)
    * (1 / max sp.terrainH0 0.000001)
  let desired :=
    if sp.terrainEnabled > 0.5 ∧ sp.terrainParticleDriftStrength > 0
    then (des.1.1 + F.num driftX, des.1.2 + F.num driftY)
    else des.1
  let damping := clampq (1 - pdp.p2Friction * dt) 0 1
  let velx1 := p0.velx * F.num damping + desired.1 * F.num (1 - damping)
  let vely1 := p0.vely * F.num damping + desired.2 * F.num (1 - damping)
  let vel2 := speedLimit orc (pdp.p2Speed * 2) velx1 vely1
  integrateReflect orc maxX maxY dt p0.posx p0.posy vel2.1 vel2.2 des.2

/-- Motion + energy phase of the predator kernel (updateP2.wgsl, after the
state and NaN guards): motion, energy decay, density-based eating at the
pre-move clamped cell. -/
def updateP2_move (gi : GridInfo) (predatorParams : PredatorParams)
    (simParams : SimParams) (orc : Oracles) (pDensity : ℕ → ℕ)
    (terrainField : ℕ → ℚ) (idx : ℕ) (p0 : Particle) : Particle :=
  let kin := updateP2_motion gi predatorParams simParams orc pDensity terrainField idx p0
  let dt := simParams.deltaTime
  let maxX := ((gi.width - 1 : ℕ) : ℚ)
  let maxY := ((gi.height - 1 : ℕ) : ℚ)
  let xi := F.toU32 (F.fclamp p0.posx (F.num 0) (F.num maxX))
  let yi := F.toU32 (F.fclamp p0.posy (F.num 0) (F.num maxY))
  let base := yi * gi.width + xi
  let e1 := p0.energy - predatorParams.p2EnergyDecayRate * dt
  let e2 := if predatorParams.p2EatEnabled > 0.5
    then e1 + predatorParams.p2EatAmount * dt * clampq ((pDensity base : ℕ) : ℚ) 0 4
           * predatorParams.p2EnergyFromEat
    else e1
  { p0 with posx := kin.posx, posy := kin.posy, velx := kin.velx, vely := kin.vely,
            age := kin.age, energy := e2 }

/-- The predator update kernel (updateP2.wgsl `main`) for slot idx.
Returns the optional parent write to predatorsOut[idx] (inactive slots
write nothing) and the optional child write. -/
def updateP2 (gi : GridInfo) (predatorParams : PredatorParams)
    (simParams : SimParams) (orc : Oracles) (predatorsIn : ℕ → Particle)
    (pDensity : ℕ → ℕ) (terrainField : ℕ → ℚ)
    (idx : ℕ) : Option Particle × Option (ℕ × Particle) :=
  let maxPredators : ℕ := 16384
  let p0 := predatorsIn idx
  if p0.state = 0 then (none, none) else
  if p0.posx.isNan || p0.posy.isNan then (some { p0 with state := 0 }, none) else
  let p1 := updateP2_move gi predatorParams simParams orc pDensity terrainField idx p0
  let r0 := (updateP2Seeds simParams idx).1
  let r1 := (updateP2Seeds simParams idx).2.1
  let r2 := (updateP2Seeds simParams idx).2.2
  if predatorParams.p2ReproduceEnabled > 0.5 ∧
      predatorParams.p2ReproduceThreshold ≤ p1.energy ∧ p1.state = 1 then
    let startSlot := u32ofQ (r0 * (maxPredators : ℚ))
    match findFreeSlot predatorsIn maxPredators startSlot with
    | some targetSlot =>
      let eHalf := p1.energy * 0.5
      let spawnOffsetAngle := r1 * tauW
      let spawnDist := predatorParams.p2ReproduceSpawnRadius * (0.5 + r2 * 0.5)
      let offX := orc.cosq spawnOffsetAngle * spawnDist
      let offY := orc.sinq spawnOffsetAngle * spawnDist
      let childPosX := F.fclamp (p1.posx + F.num offX) (F.num 0) (F.num ((gi.width - 1 : ℕ) : ℚ))
      let childPosY := F.fclamp (p1.posy + F.num offY) (F.num 0) (F.num ((gi.height - 1 : ℕ) : ℚ))
      let seedBase := idx ^^^ ((u32ofQ (simParams.currentTime * 60) * 1103515245 + 12345) % 4294967296)
      let r3 := rand01 (seedBase ^^^ 0x9E3779B9)
      let r4 := rand01 (seedBase ^^^ 0x7F4A7C15)
      let childVelX := p1.velx * F.num 0.5 + F.num ((r3 * 2 - 1) * predatorParams.p2Speed * 0.3)
      let childVelY := p1.vely * F.num 0.5 + F.num ((r4 * 2 - 1) * predatorParams.p2Speed * 0.3)
      let child : Particle := ⟨childPosX, childPosY, childVelX, childVelY, eHalf,
        p1.type_, 1, F.num spawnOffsetAngle⟩
      (some (agentFinalize predatorParams.p2MaxEnergy predatorParams.p2MinEnergy p1 eHalf),
        some (targetSlot, child))
    | none =>
      (some (agentFinalize predatorParams.p2MaxEnergy predatorParams.p2MinEnergy p1 p1.energy),
        none)
  else
    (some (agentFinalize predatorParams.p2MaxEnergy predatorParams.p2MinEnergy p1 p1.energy),
      none)

/-- Zero oracle bundle for concrete scenarios (sqrt 0 = 0 as required). -/
def orcZero : Oracles := ⟨fun _ => 0, fun _ => 0, fun _ => 0, fun _ _ => 0⟩

def zeroPredatorParams : PredatorParams := ⟨0, 0, 0, 0, 0, 0, 0, 0, 0, 0, 0, 0, 0, 0, 0, 0⟩

/-- SimParams with dt = 1, currentTime = 0, every rate zero. -/
def dtOneSim : SimParams := { zeroSimParams with deltaTime := 1 }

def grid64 : GridInfo := ⟨64, 64⟩

def zeroFieldQ : ℕ → ℚ := fun _ => 0

def zeroFieldN : ℕ → ℕ := fun _ => 0

/-- Prey params of the C3 scenario: reproduction on with threshold 1, speed
1, all decay/eat/noise/friction zero, energy range [0.05, 2]. -/
def c3PParams : ParticleParams := ⟨0, 0, 0, 0, 1, 0, 0, 0, 0, 0, 1/20, 2, 1, 1, 0⟩

/-- Predator params of the C3 scenario (same knobs, predator side). -/
def c3P2Params : PredatorParams := ⟨0, 0, 0, 0, 1, 0, 0, 0, 0, 0, 1/20, 2, 1, 1, 0, 0⟩

/-- An active agent at (5,5) with energy 1; the pool where every one of the
16384 slots holds it, so all 8 reproduction probes find an occupied slot. -/
def c3Agent : Particle := ⟨F.num 5, F.num 5, F.num 0, F.num 0, 1, 0, 1, F.num 0⟩

def c3Pool : ℕ → Particle := fun _ => c3Agent

/-- Prey params of the NaN scenario: everything off, speed 1, energy range
[0.05, 2], reproduction disabled. -/
def c4PParams : ParticleParams := ⟨0, 0, 0, 0, 1, 0, 0, 0, 0, 0, 1/20, 2, 0, 0, 0⟩

/-- An agent whose stored x coordinate is NaN, otherwise alive and normal. -/
def c4Agent : Particle := ⟨F.nan, F.num 5, F.num 0, F.num 0, 1, 0, 1, F.num 0⟩

def c4Pool : ℕ → Particle := fun _ => c4Agent

/-- Prey params of the reflection scenario: friction, noise, bias and all
energy effects zero; speed 1 (so the cap 2·pSpeed does not bind). -/
def c5PParams : ParticleParams := ⟨0, 0, 0, 0, 1, 0, 0, 0, 0, 0, 1/20, 2, 0, 0, 0⟩

/-- The reflection-test agent: at (−1, H/2) with velocity (−1, 0). -/
def c5Agent : Particle := ⟨F.num (-1), F.num 32, F.num (-1), F.num 0, 1, 0, 1, F.num 0⟩

def c5Pool : ℕ → Particle := fun _ => c5Agent

/-- Identity-sqrt oracle bundle: satisfies sqrt 0 = 0 and sqrt 1 = 1. -/
def orcIdSqrt : Oracles := ⟨fun _ => 0, fun _ => 0, fun x => x, fun _ _ => 0⟩

theorem clampq_le (x lo hi : ℚ) (h : lo ≤ hi) : lo ≤ clampq x lo hi ∧ clampq x lo hi ≤ hi := by
  unfold clampq
  constructor
  · exact le_min (le_max_right x lo) h
  · exact min_le_right _ _

/-- C1 counterexample: in the single-cell scenario R = 1, O = 1, M = 0.25
with reactionRate = 1, dt = 0.001, the B written by the O kernel is
B + 2.5e-4 (since g = clamp(M,0,1) = 0.25 and B receives g·F·dt), which is
NOT within 1e-6 of the claimed increase 7.5e-4. -/
theorem c1_reaction_mass_split_cex :
    (updateO_cell c1Grid c1Params (fun _ => 1) (fun _ => 1) (fun _ => 1/4)
      (fun _ => 0) (fun _ => 0) 0 0).2 = 1/4000 ∧
    ¬ |(1/4000 : ℚ) - (0 + 3/4000)| ≤ 1/1000000 := by
  constructor
  · norm_num [updateO_cell, reactionF, clampq, c1Params, c1Grid, zeroSimParams]
  · rw [abs_le]
    push_neg
    intro h
    norm_num at h

/-- C1 (amended): in the same scenario one application of the O kernel and
the H kernel increases B by g·F·dt = 0.25·1·0.001 = 2.5e-4 (within 1e-6),
increases H by (1−g)·F·dt = 0.75·1·0.001 = 7.5e-4 (within 1e-6), and
decreases O by F·dt = 1·0.001. -/
theorem c1_reaction_mass_split :
    (updateO_cell c1Grid c1Params (fun _ => 1) (fun _ => 1) (fun _ => 1/4)
      (fun _ => 0) (fun _ => 0) 0 0).2 = 0 + 1/4000 ∧
    |(updateO_cell c1Grid c1Params (fun _ => 1) (fun _ => 1) (fun _ => 1/4)
      (fun _ => 0) (fun _ => 0) 0 0).2 - (0 + 1/4000)| ≤ 1/1000000 ∧
    |updateH_cell c1Grid c1Params (fun _ => 0) (fun _ => 1) (fun _ => 1)
      (fun _ => 1/4) 0 0 - (0 + 3/4000)| ≤ 1/1000000 ∧
    (updateO_cell c1Grid c1Params (fun _ => 1) (fun _ => 1) (fun _ => 1/4)
      (fun _ => 0) (fun _ => 0) 0 0).1 = 1 - 1/1000 := by
  have hB : (updateO_cell c1Grid c1Params (fun _ => 1) (fun _ => 1) (fun _ => 1/4)
      (fun _ => 0) (fun _ => 0) 0 0).2 = 1/4000 := by
    norm_num [updateO_cell, reactionF, clampq, c1Params, c1Grid, zeroSimParams]
  have hO : (updateO_cell c1Grid c1Params (fun _ => 1) (fun _ => 1) (fun _ => 1/4)
      (fun _ => 0) (fun _ => 0) 0 0).1 = 999/1000 := by
    norm_num [updateO_cell, reactionF, clampq, c1Params, c1Grid, zeroSimParams]
  have hH : updateH_cell c1Grid c1Params (fun _ => 0) (fun _ => 1) (fun _ => 1)
      (fun _ => 1/4) 0 0 = 3/4000 := by
    norm_num [updateH_cell, reactionF, clampq, c1Params, c1Grid, zeroSimParams]
  refine ⟨by rw [hB]; norm_num, ?_, ?_, by rw [hO]; norm_num⟩
  · rw [hB, abs_le]
    constructor <;> norm_num
  · rw [hH, abs_le]
    constructor <;> norm_num

/-- C8: for every cell with O in [0,1] and dt > 0, the capped flux satisfies
F·dt ≤ O (consumption alone never drives O negative) and the written value
O' = clamp(..., 0, 1) lies in [0,1]. -/
theorem c8_o_kernel_safety (gi : GridInfo) (params : SimParams)
    (oFieldIn rField mField bField terrainField : ℕ → ℚ) (x y : ℕ)
    (hO0 : 0 ≤ oFieldIn (y * gi.width + x)) (hO1 : oFieldIn (y * gi.width + x) ≤ 1)
    (hdt : 0 < params.deltaTime) :
    reactionF params.reactionRate (rField (y * gi.width + x))
        (oFieldIn (y * gi.width + x)) params.deltaTime * params.deltaTime
      ≤ oFieldIn (y * gi.width + x) ∧
    0 ≤ (updateO_cell gi params oFieldIn rField mField bField terrainField x y).1 ∧
    (updateO_cell gi params oFieldIn rField mField bField terrainField x y).1 ≤ 1 := by
  refine ⟨?_, ?_, ?_⟩
  · have hmin : reactionF params.reactionRate (rField (y * gi.width + x))
        (oFieldIn (y * gi.width + x)) params.deltaTime
        ≤ oFieldIn (y * gi.width + x) / params.deltaTime := min_le_right _ _
    calc reactionF params.reactionRate (rField (y * gi.width + x))
          (oFieldIn (y * gi.width + x)) params.deltaTime * params.deltaTime
        ≤ oFieldIn (y * gi.width + x) / params.deltaTime * params.deltaTime :=
          mul_le_mul_of_nonneg_right hmin (le_of_lt hdt)
      _ = oFieldIn (y * gi.width + x) := div_mul_cancel₀ _ (ne_of_gt hdt)
  · exact (clampq_le _ 0 1 (by norm_num)).1
  · exact (clampq_le _ 0 1 (by norm_num)).2

/-- C8 witness at a concrete cell. -/
theorem c8_o_kernel_safety_witness :
    0 ≤ (updateO_cell ⟨1,1⟩ c8Params (fun _ => 1) (fun _ => 1)
      (fun _ => 1) (fun _ => 0) (fun _ => 0) 0 0).1 ∧
    (updateO_cell ⟨1,1⟩ c8Params (fun _ => 1) (fun _ => 1)
      (fun _ => 1) (fun _ => 0) (fun _ => 0) 0 0).1 ≤ 1 := by
  have h := c8_o_kernel_safety ⟨1,1⟩ c8Params
    (fun _ => 1) (fun _ => 1) (fun _ => 1) (fun _ => 0) (fun _ => 0) 0 0
    (by norm_num) (by norm_num) (by norm_num [c8Params, zeroSimParams])
  exact ⟨h.2.1, h.2.2⟩

/-- C9: for every cell with B in [0,10] and mYield ≥ 0 (its declared
parameter range), the M kernel computes K, dM and consume as specified and
writes M' = clamp(M+dM,0,10), B' = clamp(B−consume,0,10),
B_long' = clamp(B_long + bLongRate·(B'−B_long)·dt, 0, 10), leaving
R, O, C, H untouched. -/
theorem c9_m_kernel (params : SimParams) (s : MCellState)
    (hB0 : 0 ≤ s.B) (hB1 : s.B ≤ 10) (hY : 0 ≤ params.mYield) :
    (updateM_cell params s).M = clampq (s.M + mGrowthDelta params s) 0 10 ∧
    (updateM_cell params s).B = clampq (s.B - mConsume params s) 0 10 ∧
    (updateM_cell params s).BLong
      = clampq (s.BLong + params.bLongRate *
          (clampq (s.B - mConsume params s) 0 10 - s.BLong) * params.deltaTime) 0 10 ∧
    (updateM_cell params s).R = s.R ∧ (updateM_cell params s).O = s.O ∧
    (updateM_cell params s).C = s.C ∧ (updateM_cell params s).H = s.H := by
  have hcle : mConsume params s ≤ s.B := min_le_right _ _
  have hc0 : 0 ≤ mConsume params s := le_min (mul_nonneg hY (le_max_right _ 0)) hB0
  have hb : clampq (s.B - mConsume params s) 0 10 = s.B - mConsume params s := by
    unfold clampq
    rw [max_eq_left (by linarith), min_eq_left (by linarith)]
  refine ⟨rfl, rfl, ?_, rfl, rfl, rfl, rfl⟩
  rw [hb]
  rfl

/-- C9 witness at a concrete cell state. -/
theorem c9_m_kernel_witness :
    (0:ℚ) ≤ 2 ∧ (2:ℚ) ≤ 10 ∧ (0:ℚ) ≤ 1 ∧
    (updateM_cell { zeroSimParams with mYield := 1, deltaTime := 1 }
      ⟨0, 0, 0, 0, 1, 2, 3⟩).R = 0 :=
  ⟨by norm_num, by norm_num, by norm_num [zeroSimParams],
    (c9_m_kernel { zeroSimParams with mYield := 1, deltaTime := 1 }
      ⟨0, 0, 0, 0, 1, 2, 3⟩ (by norm_num) (by norm_num)
      (by norm_num [zeroSimParams])).2.2.2.1⟩

/-- C2 counterexample: a call to step() does NOT end with a terrain Z
dispatch — the terrain kernel is never dispatched at all; the last dispatch
is the P update. -/
theorem c2_step_order_cex :
    (SimulationEngine.step ⟨0, 0, 0, 0, 0, 0, 0⟩).2.getLast? = some Dispatch.updateP ∧
    Dispatch.terrainZ ∉ (SimulationEngine.step ⟨0, 0, 0, 0, 0, 0, 0⟩).2 := by
  constructor
  · rfl
  · decide

/-- C2 (amended): every call to step() dispatches exactly the thirteen
kernels 1–13 of the specified order (R update … P update) and ends with the
P update and its ping-pong swap; no terrain Z kernel is dispatched. -/
theorem c2_step_order (s : EngineState) :
    (SimulationEngine.step s).2 =
      [Dispatch.updateR, Dispatch.updateO, Dispatch.computeC, Dispatch.updateH,
       Dispatch.diffuseH, Dispatch.updateM, Dispatch.clearDp, Dispatch.scatterDp,
       Dispatch.clearNextP2, Dispatch.updateP2, Dispatch.clearDp2, Dispatch.scatterDp2,
       Dispatch.updateP] ∧
    Dispatch.terrainZ ∉ (SimulationEngine.step s).2 ∧
    (SimulationEngine.step s).1 =
      { rBufferIndex := 1 - s.rBufferIndex, oBufferIndex := 1 - s.oBufferIndex,
        mBufferIndex := 1 - s.mBufferIndex, hBufferIndex := 1 - (1 - s.hBufferIndex),
        pBufferIndex := 1 - s.pBufferIndex, p2BufferIndex := 1 - s.p2BufferIndex,
        frameCount := s.frameCount + 1 } := by
  exact ⟨rfl, by simp [SimulationEngine.step], rfl⟩

/-- C10: set with a known parameter name stores and returns the value
clamped into the declared [min,max] of that parameter's definition and
leaves every other stored value unchanged; set with an unknown name (the
console warning is I/O, invisible here) returns undefined and leaves the
whole store unchanged. -/
theorem c10_set_param (ps : SimulationParameters) (name : String) (value : ℚ) :
    (∀ d, PARAMETER_DEFS.find? (fun e => e.name == name) = some d →
      (ps.set name value).2 = some (max d.min (min d.max value)) ∧
      (ps.set name value).1.values name = some (max d.min (min d.max value)) ∧
      ∀ k, k ≠ name → (ps.set name value).1.values k = ps.values k) ∧
    (PARAMETER_DEFS.find? (fun e => e.name == name) = none →
      (ps.set name value).1 = ps ∧ (ps.set name value).2 = none) := by
  constructor
  · intro d hfind
    refine ⟨?_, ?_, ?_⟩
    · simp [SimulationParameters.set, hfind]
    · simp [SimulationParameters.set, hfind]
    · intro k hk
      simp [SimulationParameters.set, hfind, hk]
  · intro hfind
    exact ⟨by simp [SimulationParameters.set, hfind], by simp [SimulationParameters.set, hfind]⟩

/-- C10 witness: setting reactionRate (declared range [0,2]) to 100 stores
and returns 2; setting a name that is not defined leaves the store
unchanged. -/
theorem c10_set_param_witness :
    (SimulationParameters.init.set ("reactionRate") 100).2 = some 2 ∧
    (SimulationParameters.init.set ("noSuchParam") 100).1 = SimulationParameters.init := by
  constructor
  · have h := (c10_set_param SimulationParameters.init ("reactionRate") 100).1
      ⟨"reactionRate", 2, 0, 2, (1/100), "Reaction", "반응 계수"⟩ rfl
    rw [h.1]
    norm_num
  · exact ((c10_set_param SimulationParameters.init ("noSuchParam") 100).2 rfl).1

/-- C6 counterexample: with the Math.random() stream constantly 255/256 on a
64×64 grid, the first initialized slot is active at pos.x = 63.75, which is
NOT inside [0, W−1] = [0, 63]: initialization bounds positions by [0, W),
not [0, W−1]. -/
theorem c6_init_cex :
    (initParticleSlot 64 64 (fun _ => 255/256) 1 0).state = 1 ∧
    (initParticleSlot 64 64 (fun _ => 255/256) 1 0).posx = F.num (255/4) ∧
    ¬ ((255/4 : ℚ) ≤ 64 - 1) := by
  refine ⟨by norm_num [initParticleSlot], by norm_num [initParticleSlot], by norm_num⟩

/-- C6 (amended): immediately after initialization, every slot with
state = 1 has position inside [0, W) × [0, H) (not [0, W−1] × [0, H−1]),
zero velocity, energy 1.0 and heading rng·2π; every slot at index ≥
activeCount has state 0; predator slots are identical with type = 1. -/
theorem c6_pool_init (gridWidth gridHeight : ℚ) (rng : ℕ → ℚ) (activeCount i : ℕ)
    (hrng : ∀ n, 0 ≤ rng n ∧ rng n < 1)
    (hW : 0 < gridWidth) (hH : 0 < gridHeight) :
    (i < activeCount →
      (initParticleSlot gridWidth gridHeight rng activeCount i).state = 1 ∧
      (initParticleSlot gridWidth gridHeight rng activeCount i).posx
        = F.num (rng (3*i) * gridWidth) ∧
      0 ≤ rng (3*i) * gridWidth ∧ rng (3*i) * gridWidth < gridWidth ∧
      (initParticleSlot gridWidth gridHeight rng activeCount i).posy
        = F.num (rng (3*i+1) * gridHeight) ∧
      0 ≤ rng (3*i+1) * gridHeight ∧ rng (3*i+1) * gridHeight < gridHeight ∧
      (initParticleSlot gridWidth gridHeight rng activeCount i).velx = F.num 0 ∧
      (initParticleSlot gridWidth gridHeight rng activeCount i).vely = F.num 0 ∧
      (initParticleSlot gridWidth gridHeight rng activeCount i).energy = 1 ∧
      (initParticleSlot gridWidth gridHeight rng activeCount i).age
        = F.num (rng (3*i+2) * mathPi * 2)) ∧
    (activeCount ≤ i →
      (initParticleSlot gridWidth gridHeight rng activeCount i).state = 0) ∧
    (i < activeCount →
      (initPredatorSlot gridWidth gridHeight rng activeCount i).state = 1 ∧
      (initPredatorSlot gridWidth gridHeight rng activeCount i).type_ = 1 ∧
      (initPredatorSlot gridWidth gridHeight rng activeCount i).energy = 1) ∧
    (activeCount ≤ i →
      (initPredatorSlot gridWidth gridHeight rng activeCount i).state = 0) := by
  refine ⟨fun hi => ?_, fun hi => ?_, fun hi => ?_, fun hi => ?_⟩
  · rw [initParticleSlot, if_pos hi]
    refine ⟨rfl, rfl, mul_nonneg (hrng _).1 (le_of_lt hW),
      (mul_lt_iff_lt_one_left hW).mpr (hrng _).2, rfl,
      mul_nonneg (hrng _).1 (le_of_lt hH),
      (mul_lt_iff_lt_one_left hH).mpr (hrng _).2, rfl, rfl, rfl, rfl⟩
  · rw [initParticleSlot, if_neg (by omega)]
  · rw [initPredatorSlot, if_pos hi]
    exact ⟨rfl, rfl, rfl⟩
  · rw [initPredatorSlot, if_neg (by omega)]

/-- C6 witness at a concrete slot. -/
theorem c6_pool_init_witness :
    (initParticleSlot 64 64 (fun _ => 1/2) 1 0).state = 1 ∧
    (initPredatorSlot 64 64 (fun _ => 1/2) 1 0).type_ = 1 := by
  have h := c6_pool_init 64 64 (fun _ => 1/2) 1 0
    (fun n => ⟨by norm_num, by norm_num⟩) (by norm_num) (by norm_num)
  exact ⟨(h.1 (by norm_num)).1, (h.2.2.1 (by norm_num)).2.1⟩

theorem toU32_fclamp_le (v : F) (n : ℕ) :
    F.toU32 (F.fclamp v (F.num 0) (F.num (n : ℚ))) ≤ n := by
  cases v with
  | nan =>
    have h0 : F.fclamp F.nan (F.num 0) (F.num (n : ℚ)) = F.num (min 0 (n : ℚ)) := rfl
    rw [h0, min_eq_left (by positivity)]
    simp [F.toU32, u32ofQ]
  | num q =>
    have h0 : F.fclamp (F.num q) (F.num 0) (F.num (n : ℚ)) = F.num (min (max q 0) (n : ℚ)) := rfl
    rw [h0]
    simp only [F.toU32, u32ofQ]
    have hfl : Int.floor (min (max q 0) (n : ℚ)) ≤ (n : ℤ) := by
      have h1 : min (max q 0) (n : ℚ) ≤ (n : ℚ) := min_le_right _ _
      have h2 := Int.floor_le_floor h1
      rwa [Int.floor_natCast] at h2
    calc min (max (Int.floor (min (max q 0) (n : ℚ))) 0).toNat 4294967295
        ≤ (max (Int.floor (min (max q 0) (n : ℚ))) 0).toNat := min_le_left _ _
      _ ≤ n := by omega

theorem densityBucket_lt (gi : GridInfo) (p : Particle)
    (hW : 0 < gi.width) (hH : 0 < gi.height) :
    densityBucket gi p < gi.width * gi.height := by
  have hx := toU32_fclamp_le p.posx (gi.width - 1)
  have hy := toU32_fclamp_le p.posy (gi.height - 1)
  unfold densityBucket
  have hxi : F.toU32 (F.fclamp p.posx (F.num 0) (F.num ((gi.width - 1 : ℕ) : ℚ)))
      ≤ gi.width - 1 := hx
  have hyi : F.toU32 (F.fclamp p.posy (F.num 0) (F.num ((gi.height - 1 : ℕ) : ℚ)))
      ≤ gi.height - 1 := hy
  calc F.toU32 (F.fclamp p.posy (F.num 0) (F.num ((gi.height - 1 : ℕ) : ℚ))) * gi.width
        + F.toU32 (F.fclamp p.posx (F.num 0) (F.num ((gi.width - 1 : ℕ) : ℚ)))
      ≤ (gi.height - 1) * gi.width + (gi.width - 1) := by
        exact Nat.add_le_add (Nat.mul_le_mul_right _ hyi) hxi
    _ < gi.width * gi.height := by
        have h1 : 1 ≤ gi.width := hW
        have h2 : 1 ≤ gi.height := hH
        calc (gi.height - 1) * gi.width + (gi.width - 1)
            < (gi.height - 1) * gi.width + gi.width := by omega
          _ = gi.height * gi.width := by
              rw [Nat.sub_one_mul, Nat.sub_add_cancel (Nat.le_mul_of_pos_left _ hH)]
          _ = gi.width * gi.height := Nat.mul_comm _ _

theorem accumulateDensity_cell (gi : GridInfo) (pool : List Particle) (d : ℕ → ℕ) (c : ℕ) :
    accumulateDensity gi pool d c
      = d c + pool.countP (fun p => p.state != 0 && densityBucket gi p == c) := by
  induction pool generalizing d with
  | nil => simp [accumulateDensity]
  | cons p rest ih =>
    have hstep : accumulateDensity gi (p :: rest) d
        = accumulateDensity gi rest
            (if p.state = 0 then d else bumpCell d (densityBucket gi p)) := rfl
    rw [hstep, List.countP_cons]
    by_cases hp : p.state = 0
    · simp [hp, ih]
    · rw [if_neg hp, ih]
      by_cases hc : densityBucket gi p = c
      · subst hc
        simp [bumpCell, hp]
        omega
      · have hcs : ¬ c = densityBucket gi p := fun h => hc h.symm
        simp only [bumpCell, if_neg hcs]
        simp [hc, hp]

theorem accumulateDensity_sum (gi : GridInfo) (pool : List Particle) (d : ℕ → ℕ)
    (hW : 0 < gi.width) (hH : 0 < gi.height) :
    Finset.sum (Finset.range (gi.width * gi.height)) (accumulateDensity gi pool d)
      = Finset.sum (Finset.range (gi.width * gi.height)) d
        + pool.countP (fun p => p.state != 0) := by
  induction pool generalizing d with
  | nil => simp [accumulateDensity]
  | cons p rest ih =>
    have hstep : accumulateDensity gi (p :: rest) d
        = accumulateDensity gi rest
            (if p.state = 0 then d else bumpCell d (densityBucket gi p)) := rfl
    rw [hstep, List.countP_cons, ih]
    by_cases hp : p.state = 0
    · simp [hp]
    · have hb : densityBucket gi p ∈ Finset.range (gi.width * gi.height) :=
        Finset.mem_range.mpr (densityBucket_lt gi p hW hH)
      have hsum : Finset.sum (Finset.range (gi.width * gi.height)) (bumpCell d (densityBucket gi p))
          = Finset.sum (Finset.range (gi.width * gi.height)) d + 1 := by
        unfold bumpCell
        rw [Finset.sum_congr rfl (fun c _ => by
          show (if c = densityBucket gi p then d c + 1 else d c)
            = d c + (if c = densityBucket gi p then 1 else 0)
          by_cases h : c = densityBucket gi p <;> simp [h])]
        rw [Finset.sum_add_distrib, Finset.sum_ite_eq' (Finset.range (gi.width * gi.height))
          (densityBucket gi p) (fun _ => 1), if_pos hb]
      rw [if_neg hp, hsum]
      simp [hp]
      omega

/-- C7: starting from the cleared grid, after the scatter every cell holds
exactly the number of state-1 agents whose clamped integer-bucketed
position falls in that cell, and the total over all cells equals the
number of state-1 agents in the pool.  (Holds for either pool; states are
0/1 by the pool invariant.) -/
theorem c7_density_scatter (gi : GridInfo) (pool : List Particle)
    (hW : 0 < gi.width) (hH : 0 < gi.height)
    (hstate : ∀ p ∈ pool, p.state = 0 ∨ p.state = 1) :
    (∀ c, accumulateDensity gi pool clearDensity c
        = pool.countP (fun p => p.state == 1 && densityBucket gi p == c)) ∧
    Finset.sum (Finset.range (gi.width * gi.height)) (accumulateDensity gi pool clearDensity)
      = pool.countP (fun p => p.state == 1) := by
  have hcongr : ∀ c, pool.countP (fun p => p.state != 0 && densityBucket gi p == c)
      = pool.countP (fun p => p.state == 1 && densityBucket gi p == c) := by
    intro c
    apply List.countP_congr
    intro p hp
    rcases hstate p hp with h | h <;> simp [h]
  have hcongr2 : pool.countP (fun p => p.state != 0)
      = pool.countP (fun p => p.state == 1) := by
    apply List.countP_congr
    intro p hp
    rcases hstate p hp with h | h <;> simp [h]
  constructor
  · intro c
    rw [accumulateDensity_cell, hcongr]
    simp [clearDensity]
  · rw [accumulateDensity_sum gi pool clearDensity hW hH, hcongr2]
    simp [clearDensity]

/-- C7 witness on a concrete two-agent pool in a 2×2 grid. -/
theorem c7_density_scatter_witness :
    accumulateDensity ⟨2, 2⟩
      [⟨F.num 0, F.num 0, F.num 0, F.num 0, 1, 0, 1, F.num 0⟩,
       ⟨F.num 1, F.num 1, F.num 0, F.num 0, 1, 0, 1, F.num 0⟩] clearDensity 0 = 1 := by
  have h := (c7_density_scatter ⟨2, 2⟩
      [⟨F.num 0, F.num 0, F.num 0, F.num 0, 1, 0, 1, F.num 0⟩,
       ⟨F.num 1, F.num 1, F.num 0, F.num 0, 1, 0, 1, F.num 0⟩]
      (by norm_num) (by norm_num)
      (by intro p hp; fin_cases hp <;> simp)).1 0
  rw [h]
  have hb1 : densityBucket ⟨2, 2⟩ ⟨F.num 0, F.num 0, F.num 0, F.num 0, 1, 0, 1, F.num 0⟩ = 0 := by
    show F.toU32 (F.fclamp (F.num 0) (F.num 0) (F.num ((1:ℕ) : ℚ))) * 2
      + F.toU32 (F.fclamp (F.num 0) (F.num 0) (F.num ((1:ℕ) : ℚ))) = 0
    norm_num [F.fclamp, F.fmin, F.fmax, F.toU32, u32ofQ]
  have hb2 : densityBucket ⟨2, 2⟩ ⟨F.num 1, F.num 1, F.num 0, F.num 0, 1, 0, 1, F.num 0⟩ = 3 := by
    show F.toU32 (F.fclamp (F.num 1) (F.num 0) (F.num ((1:ℕ) : ℚ))) * 2
      + F.toU32 (F.fclamp (F.num 1) (F.num 0) (F.num ((1:ℕ) : ℚ))) = 3
    norm_num [F.fclamp, F.fmin, F.fmax, F.toU32, u32ofQ]
  rw [List.countP_cons, List.countP_cons, List.countP_nil]
  simp [hb1, hb2]

theorem findFreeSlot_all_active (pool : ℕ → Particle) (h : ∀ j, (pool j).state ≠ 0)
    (m s : ℕ) : findFreeSlot pool m s = none := by
  unfold findFreeSlot
  refine List.findSome?_eq_none_iff.mpr (fun a _ => ?_)
  simp only [if_neg (h ((s + a * 1237) % m))]

theorem updateP_move_state (gi : GridInfo) (particleParams : ParticleParams)
    (predatorParams : PredatorParams) (simParams : SimParams) (orc : Oracles)
    (bField : ℕ → ℚ) (p2Density : ℕ → ℕ) (idx : ℕ) (p0 : Particle) :
    (updateP_move gi particleParams predatorParams simParams orc bField p2Density idx p0).1.state
      = p0.state := rfl

theorem updateP2_move_state (gi : GridInfo) (predatorParams : PredatorParams)
    (simParams : SimParams) (orc : Oracles) (pDensity : ℕ → ℕ)
    (terrainField : ℕ → ℚ) (idx : ℕ) (p0 : Particle) :
    (updateP2_move gi predatorParams simParams orc pDensity terrainField idx p0).state
      = p0.state := rfl

/-- Helper: the prey kernel with an active parent, eligible reproduction and
a failed slot probe returns the moved parent finalized at its UNhalved
energy and writes no child. -/
theorem updateP_no_slot (gi : GridInfo) (particleParams : ParticleParams)
    (predatorParams : PredatorParams) (simParams : SimParams) (orc : Oracles)
    (particlesIn : ℕ → Particle) (bField : ℕ → ℚ) (p2Density : ℕ → ℕ) (idx : ℕ)
    (hst : (particlesIn idx).state = 1)
    (hen : 0.5 < particleParams.pReproduceEnabled)
    (hth : particleParams.pReproduceThreshold ≤
      (updateP_move gi particleParams predatorParams simParams orc bField p2Density idx
        (particlesIn idx)).1.energy)
    (hfind : findFreeSlot particlesIn 16384
      (u32ofQ ((updatePSeeds simParams idx).1 * ((16384 : ℕ) : ℚ))) = none) :
    updateP gi particleParams predatorParams simParams orc particlesIn bField p2Density idx
      = (agentFinalize particleParams.pMaxEnergy particleParams.pMinEnergy
          (updateP_move gi particleParams predatorParams simParams orc bField p2Density idx
            (particlesIn idx)).1
          (updateP_move gi particleParams predatorParams simParams orc bField p2Density idx
            (particlesIn idx)).1.energy,
         none,
         (updateP_move gi particleParams predatorParams simParams orc bField p2Density idx
            (particlesIn idx)).2) := by
  have hp1s : (updateP_move gi particleParams predatorParams simParams orc bField p2Density idx
      (particlesIn idx)).1.state = 1 := by
    rw [updateP_move_state, hst]
  simp only [updateP]
  rw [if_neg (by rw [hst]; exact one_ne_zero), if_pos ⟨hen, hth, hp1s⟩, hfind]

/-- Helper: the predator kernel in the same situation. -/
theorem updateP2_no_slot (gi : GridInfo) (predatorParams : PredatorParams)
    (simParams : SimParams) (orc : Oracles) (predatorsIn : ℕ → Particle)
    (pDensity : ℕ → ℕ) (terrainField : ℕ → ℚ) (idx : ℕ)
    (hst : (predatorsIn idx).state = 1)
    (hnanx : (predatorsIn idx).posx.isNan = false)
    (hnany : (predatorsIn idx).posy.isNan = false)
    (hen : 0.5 < predatorParams.p2ReproduceEnabled)
    (hth : predatorParams.p2ReproduceThreshold ≤
      (updateP2_move gi predatorParams simParams orc pDensity terrainField idx
        (predatorsIn idx)).energy)
    (hfind : findFreeSlot predatorsIn 16384
      (u32ofQ ((updateP2Seeds simParams idx).1 * ((16384 : ℕ) : ℚ))) = none) :
    updateP2 gi predatorParams simParams orc predatorsIn pDensity terrainField idx
      = (some (agentFinalize predatorParams.p2MaxEnergy predatorParams.p2MinEnergy
          (updateP2_move gi predatorParams simParams orc pDensity terrainField idx
            (predatorsIn idx))
          (updateP2_move gi predatorParams simParams orc pDensity terrainField idx
            (predatorsIn idx)).energy),
         none) := by
  have hp1s : (updateP2_move gi predatorParams simParams orc pDensity terrainField idx
      (predatorsIn idx)).state = 1 := by
    rw [updateP2_move_state, hst]
  simp only [updateP2]
  rw [if_neg (by rw [hst]; exact one_ne_zero),
    if_neg (by rw [hnanx, hnany]; simp), if_pos ⟨hen, hth, hp1s⟩, hfind]

/-- C3 (amended): for every agent of either pool that is eligible to
reproduce (enabled, energy at or above threshold) but finds no free slot
among its 8 probed candidates, the kernel performs no error action:
reproduction silently fails, no child is written, and the parent's energy
is NOT halved — it keeps its full (unhalved) post-movement energy, subject
only to the usual max-energy cap; halving happens only when a slot is
found. -/
theorem c3_reproduce_no_slot (gi : GridInfo) (particleParams : ParticleParams)
    (predatorParams : PredatorParams) (simParams : SimParams) (orc : Oracles)
    (particlesIn predatorsIn : ℕ → Particle) (bField terrainField : ℕ → ℚ)
    (p2Density pDensity : ℕ → ℕ) (idx jdx : ℕ)
    (hstP : (particlesIn idx).state = 1)
    (henP : 0.5 < particleParams.pReproduceEnabled)
    (hthP : particleParams.pReproduceThreshold ≤
      (updateP_move gi particleParams predatorParams simParams orc bField p2Density idx
        (particlesIn idx)).1.energy)
    (hfindP : findFreeSlot particlesIn 16384
      (u32ofQ ((updatePSeeds simParams idx).1 * ((16384 : ℕ) : ℚ))) = none)
    (hstQ : (predatorsIn jdx).state = 1)
    (hnanQx : (predatorsIn jdx).posx.isNan = false)
    (hnanQy : (predatorsIn jdx).posy.isNan = false)
    (henQ : 0.5 < predatorParams.p2ReproduceEnabled)
    (hthQ : predatorParams.p2ReproduceThreshold ≤
      (updateP2_move gi predatorParams simParams orc pDensity terrainField jdx
        (predatorsIn jdx)).energy)
    (hfindQ : findFreeSlot predatorsIn 16384
      (u32ofQ ((updateP2Seeds simParams jdx).1 * ((16384 : ℕ) : ℚ))) = none) :
    (updateP gi particleParams predatorParams simParams orc particlesIn bField p2Density idx).2.1
      = none ∧
    (updateP gi particleParams predatorParams simParams orc particlesIn bField p2Density idx).1.energy
      = min (updateP_move gi particleParams predatorParams simParams orc bField p2Density idx
          (particlesIn idx)).1.energy particleParams.pMaxEnergy ∧
    (updateP2 gi predatorParams simParams orc predatorsIn pDensity terrainField jdx).2 = none ∧
    (updateP2 gi predatorParams simParams orc predatorsIn pDensity terrainField jdx).1
      = some (agentFinalize predatorParams.p2MaxEnergy predatorParams.p2MinEnergy
          (updateP2_move gi predatorParams simParams orc pDensity terrainField jdx
            (predatorsIn jdx))
          (updateP2_move gi predatorParams simParams orc pDensity terrainField jdx
            (predatorsIn jdx)).energy) := by
  have hP := updateP_no_slot gi particleParams predatorParams simParams orc particlesIn
    bField p2Density idx hstP henP hthP hfindP
  have hQ := updateP2_no_slot gi predatorParams simParams orc predatorsIn pDensity
    terrainField jdx hstQ hnanQx hnanQy henQ hthQ hfindQ
  rw [hP, hQ]
  exact ⟨rfl, rfl, rfl, rfl⟩

theorem c3Pool_active : ∀ j, (c3Pool j).state ≠ 0 := fun _ => one_ne_zero

/-- Helper: in the C3 scenario the moved prey parent still has energy 1
(decay, eating and predation are all off). -/
theorem c3_prey_energy :
    (updateP_move grid64 c3PParams c3P2Params dtOneSim orcZero zeroFieldQ
      zeroFieldN 0 (c3Pool 0)).1.energy = 1 := by
  norm_num [updateP_move, c3PParams, c3Pool, c3Agent, dtOneSim, zeroSimParams,
    zeroFieldQ, zeroFieldN]

/-- Helper: same for the predator side. -/
theorem c3_pred_energy :
    (updateP2_move grid64 c3P2Params dtOneSim orcZero zeroFieldN zeroFieldQ 0
      (c3Pool 0)).energy = 1 := by
  norm_num [updateP2_move, c3P2Params, c3Pool, c3Agent, dtOneSim, zeroSimParams,
    zeroFieldQ, zeroFieldN]

/-- Helper: the prey kernel output in the C3 scenario. -/
theorem c3_prey_eval :
    updateP grid64 c3PParams c3P2Params dtOneSim orcZero c3Pool zeroFieldQ
        zeroFieldN 0
      = (agentFinalize c3PParams.pMaxEnergy c3PParams.pMinEnergy
          (updateP_move grid64 c3PParams c3P2Params dtOneSim orcZero zeroFieldQ
            zeroFieldN 0 (c3Pool 0)).1
          (updateP_move grid64 c3PParams c3P2Params dtOneSim orcZero zeroFieldQ
            zeroFieldN 0 (c3Pool 0)).1.energy,
         none,
         (updateP_move grid64 c3PParams c3P2Params dtOneSim orcZero zeroFieldQ
            zeroFieldN 0 (c3Pool 0)).2) :=
  updateP_no_slot grid64 c3PParams c3P2Params dtOneSim orcZero c3Pool zeroFieldQ
    zeroFieldN 0 rfl (by norm_num [c3PParams])
    (by rw [c3_prey_energy]; norm_num [c3PParams])
    (findFreeSlot_all_active c3Pool c3Pool_active _ _)

/-- C3 counterexample: in a concrete eligible-but-no-free-slot scenario
(energy 1, threshold 1, reproduction enabled, every slot of the input pool
occupied) the written parent's energy is 1, not the halved 0.5 the claim
asserts. -/
theorem c3_reproduce_no_slot_cex :
    (updateP grid64 c3PParams c3P2Params dtOneSim orcZero c3Pool zeroFieldQ
      zeroFieldN 0).1.energy = 1 ∧
    ¬ (updateP grid64 c3PParams c3P2Params dtOneSim orcZero c3Pool zeroFieldQ
      zeroFieldN 0).1.energy = 1 * 0.5 := by
  have he : (updateP grid64 c3PParams c3P2Params dtOneSim orcZero c3Pool zeroFieldQ
      zeroFieldN 0).1.energy = 1 := by
    rw [c3_prey_eval]
    show min (updateP_move grid64 c3PParams c3P2Params dtOneSim orcZero zeroFieldQ
      zeroFieldN 0 (c3Pool 0)).1.energy c3PParams.pMaxEnergy = 1
    rw [c3_prey_energy]
    norm_num [c3PParams]
  refine ⟨he, by rw [he]; norm_num⟩

/-- C3 witness: the amended theorem applied at the concrete scenario. -/
theorem c3_reproduce_no_slot_witness :
    (updateP grid64 c3PParams c3P2Params dtOneSim orcZero c3Pool zeroFieldQ
      zeroFieldN 0).2.1 = none ∧
    (updateP2 grid64 c3P2Params dtOneSim orcZero c3Pool zeroFieldN zeroFieldQ 0).2 = none := by
  have h := c3_reproduce_no_slot grid64 c3PParams c3P2Params dtOneSim orcZero
    c3Pool c3Pool zeroFieldQ zeroFieldQ zeroFieldN zeroFieldN 0 0
    rfl (by norm_num [c3PParams])
    (by rw [c3_prey_energy]; norm_num [c3PParams])
    (findFreeSlot_all_active c3Pool c3Pool_active _ _)
    rfl rfl rfl (by norm_num [c3P2Params])
    (by rw [c3_pred_energy]; norm_num [c3P2Params])
    (findFreeSlot_all_active c3Pool c3Pool_active _ _)
  exact ⟨h.1, h.2.2.1⟩

/-- C4 (amended): the predator kernel detects a NaN x or y position and
writes the agent back with state = 0 (everything else untouched); the prey
kernel has no such guard — see the counterexample, where a NaN-position
prey agent is written back still active. -/
theorem c4_nan_guard (gi : GridInfo) (predatorParams : PredatorParams)
    (simParams : SimParams) (orc : Oracles) (predatorsIn : ℕ → Particle)
    (pDensity : ℕ → ℕ) (terrainField : ℕ → ℚ) (idx : ℕ)
    (hst : (predatorsIn idx).state ≠ 0)
    (hnan : (predatorsIn idx).posx.isNan = true ∨ (predatorsIn idx).posy.isNan = true) :
    updateP2 gi predatorParams simParams orc predatorsIn pDensity terrainField idx
      = (some { predatorsIn idx with state := 0 }, none) := by
  simp only [updateP2]
  rw [if_neg hst, if_pos (by rcases hnan with h | h <;> simp [h])]

/-- C4 witness: the guard applied to a concrete NaN predator. -/
theorem c4_nan_guard_witness :
    updateP2 grid64 zeroPredatorParams dtOneSim orcZero c4Pool zeroFieldN zeroFieldQ 0
      = (some { c4Agent with state := 0 }, none) :=
  c4_nan_guard grid64 zeroPredatorParams dtOneSim orcZero c4Pool zeroFieldN zeroFieldQ 0
    one_ne_zero (Or.inl rfl)

/-- C4 counterexample: the prey kernel performs no NaN detection — a prey
agent with NaN x position (energy 1, all drains off) is written back with
state = 1, not converted to state = 0 as the claim asserts for both
pools. -/
theorem c4_nan_prey_cex :
    (c4Pool 0).posx.isNan = true ∧
    (updateP grid64 c4PParams zeroPredatorParams dtOneSim orcZero c4Pool zeroFieldQ
      zeroFieldN 0).1.state = 1 := by
  refine ⟨rfl, ?_⟩
  have hen : (updateP_move grid64 c4PParams zeroPredatorParams dtOneSim orcZero zeroFieldQ
      zeroFieldN 0 (c4Pool 0)).1.energy = 1 := by
    norm_num [updateP_move, c4PParams, c4Pool, c4Agent, dtOneSim, zeroSimParams,
      zeroFieldQ, zeroFieldN]
  have heval : updateP grid64 c4PParams zeroPredatorParams dtOneSim orcZero c4Pool zeroFieldQ
      zeroFieldN 0
      = (agentFinalize c4PParams.pMaxEnergy c4PParams.pMinEnergy
          (updateP_move grid64 c4PParams zeroPredatorParams dtOneSim orcZero zeroFieldQ
            zeroFieldN 0 (c4Pool 0)).1
          (updateP_move grid64 c4PParams zeroPredatorParams dtOneSim orcZero zeroFieldQ
            zeroFieldN 0 (c4Pool 0)).1.energy,
         none,
         (updateP_move grid64 c4PParams zeroPredatorParams dtOneSim orcZero zeroFieldQ
            zeroFieldN 0 (c4Pool 0)).2) := by
    simp only [updateP]
    rw [if_neg (by norm_num [c4Pool, c4Agent]),
      if_neg (fun h => absurd h.1 (by norm_num [c4PParams]))]
  rw [heval]
  show (agentFinalize c4PParams.pMaxEnergy c4PParams.pMinEnergy _ _).state = 1
  simp only [agentFinalize, hen]
  rw [if_neg (by norm_num [c4PParams]), updateP_move_state]
  rfl

theorem F.num_add_num (a b : ℚ) : F.num a + F.num b = F.num (a + b) := rfl

theorem F.num_mul_num (a b : ℚ) : F.num a * F.num b = F.num (a * b) := rfl

theorem F.num_sub_num (a b : ℚ) : F.num a - F.num b = F.num (a - b) := rfl

theorem F.neg_num (a : ℚ) : -(F.num a) = F.num (-a) := rfl

theorem F.fabs_num (a : ℚ) : (F.num a).fabs = F.num |a| := rfl

theorem F.fltB_num (a b : ℚ) : F.fltB (F.num a) (F.num b) = decide (a < b) := rfl

theorem F.fclamp_num (x lo hi : ℚ) :
    F.fclamp (F.num x) (F.num lo) (F.num hi) = F.num (min (max x lo) hi) := rfl

theorem F.mapNum_num (f : ℚ → ℚ) (a : ℚ) : F.mapNum f (F.num a) = F.num (f a) := rfl

theorem F.atan2O_num (orc : Oracles) (a b : ℚ) :
    F.atan2O orc (F.num a) (F.num b) = F.num (orc.atan2q a b) := rfl

theorem F.div_num_num (a b : ℚ) : (F.num a).div (F.num b) = F.num (a / b) := rfl

theorem headingTurn_num (a r0 r1 tp : ℚ) : ∃ h, headingTurn (F.num a) r0 r1 tp = F.num h := by
  simp only [headingTurn]
  split_ifs <;> exact ⟨_, rfl⟩

/-- Helper: with zero gradient and hunger 0, the prey desired-velocity
stage takes the exploration branch and returns finite components. -/
theorem c5_des (orc : Oracles) (hsq0 : orc.sqrtq 0 = 0) (r0 r1 r2 : ℚ) :
    ∃ dx dy a, updateP_desired c5PParams orc 0 0 r0 r1 r2 0 (F.num 0)
      = ((F.num dx, F.num dy), F.num a) := by
  obtain ⟨h, hh⟩ := headingTurn_num 0 r0 r1 (0.02 + 0 * 0.08)
  have hng : ¬ ((0:ℚ) > 0.002) := by norm_num
  simp only [updateP_desired]
  rw [show (0 * 0 + 0 * 0 : ℚ) = 0 by norm_num, hsq0, hh]
  simp only [if_neg hng, F.mapNum_num, F.num_mul_num, F.num_add_num]
  exact ⟨_, _, _, rfl⟩

/-- Helper: the full kinematics of the reflection scenario: the agent
integrates to (−2, 32), reflects off the x = 0 wall to (2, 32), and its
velocity becomes (+1, 0)·0.7. -/
theorem c5_kin (orc : Oracles) (hsq0 : orc.sqrtq 0 = 0) (hsq1 : orc.sqrtq 1 = 1) :
    updateP_motion grid64 c5PParams dtOneSim orc zeroFieldQ 0 c5Agent
      = ⟨F.num 2, F.num 32, F.num 0.7, F.num 0, F.num (orc.atan2q 0 0.7)⟩ := by
  obtain ⟨dx, dy, a, hdes⟩ := c5_des orc hsq0 ((updatePSeeds dtOneSim 0).1)
    ((updatePSeeds dtOneSim 0).2.1) ((updatePSeeds dtOneSim 0).2.2)
  have hint : integrateReflect orc 63 63 1 (F.num (-1)) (F.num 32) (F.num (-1)) (F.num 0)
      (F.num a) = ⟨F.num 2, F.num 32, F.num 0.7, F.num 0, F.num (orc.atan2q 0 0.7)⟩ := by
    norm_num [integrateReflect, reflectAxis, F.num_mul_num, F.num_add_num, F.num_sub_num,
      F.fltB_num, F.neg_num, F.fabs_num, F.fclamp_num, F.atan2O_num, MoveKin.mk.injEq,
      abs_neg, abs_one]
  have hsl : speedLimit orc (c5PParams.pSpeed * 2) (F.num (-1)) (F.num 0)
      = (F.num (-1), F.num 0) := by
    simp only [speedLimit, F.num_mul_num, F.num_add_num, F.mapNum_num]
    rw [show ((-1:ℚ) * -1 + 0 * 0) = 1 by ring, hsq1]
    rw [if_neg (by norm_num [F.fltB_num, c5PParams])]
  simp only [updateP_motion, grid64, zeroFieldQ, c5Agent]
  simp only [show ((0:ℚ) - 0) * 0.5 = 0 from by norm_num,
    show clampq (1 - (1:ℚ)) 0 1 = 0 from by norm_num [clampq],
    show clampq (1 - c5PParams.pFriction * dtOneSim.deltaTime) 0 1 = 1 from by
      norm_num [clampq, c5PParams, dtOneSim, zeroSimParams]]
  rw [hdes]
  simp only [F.num_mul_num, F.num_add_num]
  rw [show ((-1:ℚ) * 1 + dx * (1 - 1)) = -1 by ring,
    show ((0:ℚ) * 1 + dy * (1 - 1)) = 0 by ring, hsl]
  rw [show ((64 - 1 : ℕ) : ℚ) = 63 by norm_num,
    show dtOneSim.deltaTime = 1 from rfl]
  exact hint

/-- Helper: the written prey record of the reflection scenario. -/
theorem c5_eval (orc : Oracles) (hsq0 : orc.sqrtq 0 = 0) (hsq1 : orc.sqrtq 1 = 1) :
    (updateP grid64 c5PParams zeroPredatorParams dtOneSim orc c5Pool zeroFieldQ
      zeroFieldN 0).1
      = { posx := F.num 2, posy := F.num 32, velx := F.num 0.7, vely := F.num 0,
          energy := 1, type_ := 0, state := 1, age := F.num (orc.atan2q 0 0.7) } := by
  have hmv : updateP_move grid64 c5PParams zeroPredatorParams dtOneSim orc zeroFieldQ
      zeroFieldN 0 (c5Pool 0)
      = ({ posx := F.num 2, posy := F.num 32, velx := F.num 0.7, vely := F.num 0,
           energy := 1, type_ := 0, state := 1, age := F.num (orc.atan2q 0 0.7) },
         zeroFieldQ) := by
    simp only [updateP_move, c5Pool]
    rw [c5_kin orc hsq0 hsq1]
    norm_num [c5PParams, dtOneSim, zeroSimParams, zeroFieldQ, zeroFieldN, c5Agent,
      Particle.mk.injEq]
  have heval : updateP grid64 c5PParams zeroPredatorParams dtOneSim orc c5Pool zeroFieldQ
      zeroFieldN 0
      = (agentFinalize c5PParams.pMaxEnergy c5PParams.pMinEnergy
          (updateP_move grid64 c5PParams zeroPredatorParams dtOneSim orc zeroFieldQ
            zeroFieldN 0 (c5Pool 0)).1
          (updateP_move grid64 c5PParams zeroPredatorParams dtOneSim orc zeroFieldQ
            zeroFieldN 0 (c5Pool 0)).1.energy,
         none,
         (updateP_move grid64 c5PParams zeroPredatorParams dtOneSim orc zeroFieldQ
            zeroFieldN 0 (c5Pool 0)).2) := by
    simp only [updateP]
    rw [if_neg (by norm_num [c5Pool, c5Agent]),
      if_neg (fun h => absurd h.1 (by norm_num [c5PParams]))]
  rw [heval, hmv]
  show agentFinalize c5PParams.pMaxEnergy c5PParams.pMinEnergy _ _ = _
  norm_num [agentFinalize, c5PParams, Particle.mk.injEq]

/-- C5 (amended): in the reflection scenario (agent at (−1, H/2), velocity
(−1, 0), dt = 1, friction/noise/bias/energy effects off so the velocity is
unchanged before integration), one prey step integrates to (−2, H/2) and
mirror-reflects to position (2, H/2) — not (1, H/2) — with velocity
(+1, 0)·0.7 as claimed.  Stated for every model of the float intrinsics
with sqrt 0 = 0 and sqrt 1 = 1. -/
theorem c5_reflection (orc : Oracles) (hsq0 : orc.sqrtq 0 = 0) (hsq1 : orc.sqrtq 1 = 1) :
    (updateP grid64 c5PParams zeroPredatorParams dtOneSim orc c5Pool zeroFieldQ
      zeroFieldN 0).1.posx = F.num 2 ∧
    (updateP grid64 c5PParams zeroPredatorParams dtOneSim orc c5Pool zeroFieldQ
      zeroFieldN 0).1.posy = F.num 32 ∧
    (updateP grid64 c5PParams zeroPredatorParams dtOneSim orc c5Pool zeroFieldQ
      zeroFieldN 0).1.velx = F.num 0.7 ∧
    (updateP grid64 c5PParams zeroPredatorParams dtOneSim orc c5Pool zeroFieldQ
      zeroFieldN 0).1.vely = F.num 0 := by
  rw [c5_eval orc hsq0 hsq1]
  exact ⟨rfl, rfl, rfl, rfl⟩

/-- C5 counterexample: with a concrete oracle the final position is
(2, H/2), which differs from the claimed (1, H/2). -/
theorem c5_reflection_cex :
    (updateP grid64 c5PParams zeroPredatorParams dtOneSim orcIdSqrt c5Pool zeroFieldQ
      zeroFieldN 0).1.posx = F.num 2 ∧
    F.num (2:ℚ) ≠ F.num (1:ℚ) := by
  constructor
  · rw [c5_eval orcIdSqrt rfl rfl]
  · simp

/-- C5 witness: the amended theorem applied at the identity-sqrt oracle. -/
theorem c5_reflection_witness :
    orcIdSqrt.sqrtq 0 = 0 ∧ orcIdSqrt.sqrtq 1 = 1 ∧
    (updateP grid64 c5PParams zeroPredatorParams dtOneSim orcIdSqrt c5Pool zeroFieldQ
      zeroFieldN 0).1.velx = F.num 0.7 :=
  ⟨rfl, rfl, (c5_reflection orcIdSqrt rfl rfl).2.2.1⟩
